import Mathlib

set_option maxRecDepth 100000

/-!
# Verification of the FastAPI clean-architecture project scaffolder

This file gives a shallow embedding of `init_project.py`, the project
scaffolder of this repository, and proves properties of it.

## The model

* A filesystem path is a list of path segments (`List String`).
* The filesystem is modelled as a flat partial map from paths to entries
  (`FS`); an entry is a file with its text content, or a directory.
* `pathlib.Path.mkdir(parents=True, exist_ok=True)` is modelled by
  `mkdirAll`, which adds a directory entry at every initial segment of the
  given path that is not yet present.
* Every filesystem operation of the script (`mkdir`, `touch`,
  `shutil.copy`, `write_text`) can raise an OS error.  The possibility of
  such errors is modelled by an oracle `failAt : List String → Bool`: an
  operation whose primary target path `p` has `failAt p = true` raises.
  The script installs no exception handler, so a raised error aborts the
  run; the filesystem state reached so far is kept (state is global) and
  the function produces no return value.  `Outcome.code n` models a normal
  `return n`, `Outcome.raised p` models an uncaught exception at path `p`.
* The asset directory (`Path(__file__).parent`) is modelled as a read-only
  map `assets : String → Option String` from file name to content.  The
  seven `.py` template assets present in the repository are embedded
  verbatim below; the remaining names the manifests mention
  (`conftest.py`, `Dockerfile`, the compose files, `requirements.txt`,
  `pyproject.toml`) are not part of the repository sources, so the store
  is parameterised by an `extra` map covering them.
-/

/-- An entry of the modelled filesystem: a file with its content, or a
directory. -/
inductive Entry where
  | file (content : String)
  | dir
deriving DecidableEq

/-- The filesystem: a flat partial map from paths (segment lists) to
entries. -/
abbrev FS := List String → Option Entry

/-- Write (create or overwrite) a file or directory entry at path `p`. -/
def fsWrite (fs : FS) (p : List String) (e : Entry) : FS :=
  fun q => if q = p then some e else fs q

/-- `isInitSeg a b` holds when `a` is an initial segment (an
ancestor-or-self path) of `b`. -/
def isInitSeg : List String → List String → Bool
  | [], _ => true
  | _ :: _, [] => false
  | a :: as, b :: bs => a == b && isInitSeg as bs

/-- `Path.mkdir(parents=True, exist_ok=True)`: create a directory entry at
every initial segment of `p` that does not exist yet.  (The flat map does
not distinguish a missing parent chain; filling every absent ancestor is
exactly what `parents=True` does.) -/
def mkdirAll (fs : FS) (p : List String) : FS :=
  fun q => if isInitSeg q p && (fs q).isNone then some Entry.dir else fs q

/-- A `mkdir` call: raises when the oracle marks the target, otherwise
creates the directory chain. -/
def mkdirOp (failAt : List String → Bool) (p : List String) (fs : FS) :
    FS × Option (List String) :=
  if failAt p then (fs, some p) else (mkdirAll fs p, none)

/-- `Path.touch()`: raises when the oracle marks the target; keeps an
existing entry (touch only updates the mtime); otherwise creates an empty
file. -/
def touchOp (failAt : List String → Bool) (target : List String) (fs : FS) :
    FS × Option (List String) :=
  if failAt target then (fs, some target)
  else if (fs target).isSome then (fs, none)
  else (fsWrite fs target (Entry.file ""), none)

/-- `shutil.copy(source, target)`: raises when the oracle marks the
target, otherwise writes the source content verbatim at the target. -/
def copyOp (failAt : List String → Bool) (target : List String) (content : String)
    (fs : FS) : FS × Option (List String) :=
  if failAt target then (fs, some target)
  else (fsWrite fs target (Entry.file content), none)

/-- `Path.write_text(content)`: raises when the oracle marks the target,
otherwise writes the content at the target. -/
def writeTextOp (failAt : List String → Bool) (target : List String) (content : String)
    (fs : FS) : FS × Option (List String) :=
  if failAt target then (fs, some target)
  else (fsWrite fs target (Entry.file content), none)

/-- Split a segment string on `/`, as `pathlib` does when a path string is
joined; empty components are dropped. -/
def splitSlashAux : List Char → List Char → List (List Char)
  | [], acc => [acc.reverse]
  | c :: cs, acc =>
    if c = '/' then acc.reverse :: splitSlashAux cs []
    else splitSlashAux cs (c :: acc)

/-- `output_dir / project_name` of `pathlib`: the name is split on `/`
into segments (empty segments dropped) and appended to the base; a name
starting with `/` is absolute and replaces the base. -/
def pathJoin (base : List String) (name : String) : List String :=
  let segs := ((splitSlashAux name.data []).map String.mk).filter (fun s => decide (s ≠ ""))
  match name.data with
  | '/' :: _ => segs
  | _ => base ++ segs

/-- The `TEMPLATES` manifest of `init_project.py`: relative target path
(pre-split into segments, as `pathlib` parses the `/`-separated keys)
mapped to the template asset name, `""` meaning "create an empty file". -/
def TEMPLATES : List (List String × String) :=
  [(["app", "__init__.py"], ""),
   (["app", "main.py"], "main.py"),
   (["app", "core", "__init__.py"], ""),
   (["app", "core", "config.py"], "config.py"),
   (["app", "core", "dependencies.py"], "dependencies.py"),
   (["app", "routers", "__init__.py"], "routers_init.py"),
   (["app", "routers", "health.py"], "router_health.py"),
   (["app", "services", "__init__.py"], ""),
   (["app", "services", "health_service.py"], "service_health.py"),
   (["app", "schemas", "__init__.py"], ""),
   (["app", "schemas", "health.py"], "schemas_health.py"),
   (["tests", "__init__.py"], ""),
   (["tests", "conftest.py"], "conftest.py")]

/-- The `ROOT_FILES` manifest of `init_project.py`: root-level file name
mapped to the template asset name. -/
def ROOT_FILES : List (String × String) :=
  [("Dockerfile", "Dockerfile"),
   ("docker-compose.yml", "docker-compose.yml"),
   ("docker-compose.override.yml", "docker-compose.override.yml"),
   ("docker-compose.prod.yml", "docker-compose.prod.yml"),
   ("requirements.txt", "requirements.txt"),
   ("pyproject.toml", "pyproject.toml")]

/-- The observable outcome of a `create_project` call: a normal return
with an exit status, or an uncaught filesystem error at a path. -/
inductive Outcome where
  | code (n : Nat)
  | raised (p : List String)
deriving DecidableEq

/-- One iteration of the `TEMPLATES` loop (lines 48-59 of
`init_project.py`): create the parent directory chain of the target, then
copy the asset if the key is non-empty and the asset exists, else create
an empty file. -/
def stepTemplate (assets : String → Option String) (failAt : List String → Bool)
    (project_dir : List String) (entry : List String × String) (fs : FS) :
    FS × Option (List String) :=
  let target := project_dir ++ entry.1
  match mkdirOp failAt (List.dropLast target) fs with
  | (fs2, some err) => (fs2, some err)
  | (fs2, none) =>
    if entry.2 ≠ "" then
      match assets entry.2 with
      | some content => copyOp failAt target content fs2
      | none => touchOp failAt target fs2
    else
      touchOp failAt target fs2

/-- One iteration of the `ROOT_FILES` loop (lines 61-65 of
`init_project.py`): copy the asset when it exists, otherwise silently
skip the entry. -/
def stepRoot (assets : String → Option String) (failAt : List String → Bool)
    (project_dir : List String) (entry : String × String) (fs : FS) :
    FS × Option (List String) :=
  let target := project_dir ++ [entry.1]
  match assets entry.2 with
  | some content => copyOp failAt target content fs
  | none => (fs, none)

/-- Run a list of filesystem actions in order; the first raised error
aborts the remaining actions, keeping the state reached so far. -/
def runSteps : List (FS → FS × Option (List String)) → FS → FS × Option (List String)
  | [], fs => (fs, none)
  | s :: rest, fs =>
    match s fs with
    | (fs2, none) => runSteps rest fs2
    | (fs2, some err) => (fs2, some err)

/-- The content the scaffolder writes to `.env.example` (line 68 of
`init_project.py`); note it is a fixed literal, the project name is not
substituted. -/
def envExampleContent : String :=
  "PROJECT_NAME=fastapi-app\nVERSION=0.1.0\nDEBUG=false\n"

/-- The content the scaffolder writes to `README.md` (line 71 of
`init_project.py`): the f-string interpolates the project name into the
title line. -/
def readmeContent (project_name : String) : String :=
  "# " ++ project_name ++ "\n\nFastAPI Clean Architecture Application\n"

/-- Sequencing of a filesystem action inside `create_project`: a raised
error aborts the run (the state reached so far is kept, the error
propagates), otherwise the continuation runs on the new state. -/
def opThen (r : FS × Option (List String)) (k : FS → FS × Outcome) : FS × Outcome :=
  match r with
  | (fs2, some err) => (fs2, Outcome.raised err)
  | (fs2, none) => k fs2

/-- `create_project` of `init_project.py` (lines 38-78), generalised over
the two manifests (the script reads them from module-level constants; the
loops themselves do not depend on which list they walk). -/
def create_project_with (templates : List (List String × String))
    (root_files : List (String × String)) (assets : String → Option String)
    (failAt : List String → Bool) (project_name : String) (output_dir : List String)
    (fs : FS) : FS × Outcome :=
  let project_dir := pathJoin output_dir project_name
  if (fs project_dir).isSome then
    (fs, Outcome.code 1)
  else
    opThen (mkdirOp failAt project_dir fs) fun fs1 =>
    opThen (runSteps (templates.map (stepTemplate assets failAt project_dir)) fs1) fun fs2 =>
    opThen (runSteps (root_files.map (stepRoot assets failAt project_dir)) fs2) fun fs3 =>
    opThen (writeTextOp failAt (project_dir ++ [".env.example"]) envExampleContent fs3) fun fs4 =>
    opThen (writeTextOp failAt (project_dir ++ ["README.md"]) (readmeContent project_name) fs4)
      fun fs5 => (fs5, Outcome.code 0)

/-- `create_project(project_name, output_dir)` with the script's actual
`TEMPLATES` and `ROOT_FILES` manifests. -/
def create_project (assets : String → Option String) (failAt : List String → Bool)
    (project_name : String) (output_dir : List String) (fs : FS) : FS × Outcome :=
  create_project_with TEMPLATES ROOT_FILES assets failAt project_name output_dir fs

/-- The all-operations-succeed oracle (a healthy filesystem). -/
def noFail : List String → Bool := fun _ => false

/-- Verbatim content of the asset file `main.py` bundled next to the scaffolder. -/
def mainPyContent : String :=
  "from contextlib import asynccontextmanager\nfrom fastapi import FastAPI\nfrom app.routers import api_router\nfrom app.core.config import settings\n\n\n@asynccontextmanager\nasync def lifespan(app: FastAPI):\n    # Startup: create tables, init resources\n    yield\n    # Shutdown: cleanup resources\n\n\napp = FastAPI(\n    title=settings.PROJECT_NAME,\n    version=settings.VERSION,\n    docs_url=\"/docs\",\n    redoc_url=\"/redoc\",\n    openapi_url=\"/openapi.json\",\n    lifespan=lifespan,\n)\n\napp.include_router(api_router)\n"

/-- Verbatim content of the asset file `config.py` bundled next to the scaffolder. -/
def configPyContent : String :=
  "from pydantic_settings import BaseSettings\nfrom functools import lru_cache\n\n\nclass Settings(BaseSettings):\n    PROJECT_NAME: str = \"fastapi-app\"\n    VERSION: str = \"0.1.0\"\n    DEBUG: bool = False\n    LOG_LEVEL: str = \"info\"\n\n    # Database (example)\n    DATABASE_URL: str = \"sqlite:///./app.db\"\n\n    # CORS\n    CORS_ORIGINS: list[str] = [\"*\"]\n\n    model_config = \x7b\n        \"env_file\": \".env\",\n        \"env_file_encoding\": \"utf-8\",\n        \"case_sensitive\": True,\n    \x7d\n\n\n@lru_cache\ndef get_settings() -> Settings:\n    return Settings()\n\n\nsettings = get_settings()\n"

/-- Verbatim content of the asset file `dependencies.py` bundled next to the scaffolder. -/
def dependenciesPyContent : String :=
  "from typing import Annotated\nfrom fastapi import Depends\nfrom sqlalchemy import create_engine\nfrom sqlalchemy.orm import Session, sessionmaker\n\nfrom app.core.config import settings\n\nengine = create_engine(\n    settings.DATABASE_URL,\n    connect_args=\x7b\"check_same_thread\": False\x7d\n    if \"sqlite\" in settings.DATABASE_URL\n    else \x7b\x7d,\n)\n\nSessionLocal = sessionmaker(autocommit=False, autoflush=False, bind=engine)\n\n\ndef get_db() -> Session:\n    db = SessionLocal()\n    try:\n        yield db\n    finally:\n        db.close()\n\n\nDBSession = Annotated[Session, Depends(get_db)]\n"

/-- Verbatim content of the asset file `routers_init.py` bundled next to the scaffolder. -/
def routersInitPyContent : String :=
  "from fastapi import APIRouter\nfrom app.routers.health import router as health_router\n\napi_router = APIRouter()\n\napi_router.include_router(health_router)\n# Add more routers here:\n# from app.routers.users import router as users_router\n# api_router.include_router(users_router, prefix=\"/api/v1\")\n"

/-- Verbatim content of the asset file `router_health.py` bundled next to the scaffolder. -/
def routerHealthPyContent : String :=
  "from fastapi import APIRouter, HTTPException\nfrom app.services.health_service import HealthService\nfrom app.schemas.health import HealthStatus\n\nrouter = APIRouter(tags=[\"health\"])\n\n\n@router.get(\"/health\", response_model=HealthStatus)\ndef health_check() -> HealthStatus:\n    return HealthService.get_health()\n\n\n@router.get(\"/ready\")\ndef readiness_check():\n    if not HealthService.get_ready():\n        raise HTTPException(status_code=503, detail=\"Service not ready\")\n    return \x7b\"status\": \"ready\"\x7d\n"

/-- Verbatim content of the asset file `service_health.py` bundled next to the scaffolder. -/
def serviceHealthPyContent : String :=
  "from datetime import datetime\nfrom app.core.config import settings\nfrom app.schemas.health import HealthStatus\n\n\nclass HealthService:\n    @staticmethod\n    def get_health() -> HealthStatus:\n        return HealthStatus(\n            status=\"healthy\",\n            timestamp=datetime.utcnow().isoformat(),\n            version=settings.VERSION,\n        )\n\n    @staticmethod\n    def get_ready() -> bool:\n        # Add checks for dependencies (db, redis, etc.)\n        return True\n"

/-- Verbatim content of the asset file `schemas_health.py` bundled next to the scaffolder. -/
def schemasHealthPyContent : String :=
  "from pydantic import BaseModel\n\n\nclass HealthStatus(BaseModel):\n    status: str\n    timestamp: str\n    version: str\n"

/-- The asset store of this repository: the seven template `.py` files
are present with the embedded contents; any other name (the root-file
assets and `conftest.py`, which are not among the repository sources) is
answered by the `extra` map. -/
def repoAssets (extra : String → Option String) : String → Option String := fun k =>
  if k = "main.py" then some mainPyContent
  else if k = "config.py" then some configPyContent
  else if k = "dependencies.py" then some dependenciesPyContent
  else if k = "routers_init.py" then some routersInitPyContent
  else if k = "router_health.py" then some routerHealthPyContent
  else if k = "service_health.py" then some serviceHealthPyContent
  else if k = "schemas_health.py" then some schemasHealthPyContent
  else extra k

/-- The empty extra store: the asset directory holds nothing beyond the
seven embedded template files. -/
def noAssets : String → Option String := fun _ => none

/-- The concrete asset store used in the concrete scenarios. -/
def demoAssets : String → Option String := repoAssets noAssets

/-- A filesystem in which `/tmp/out` exists and is empty. -/
def tmpOutFS : FS :=
  fun q => if q = [] ∨ q = ["tmp"] ∨ q = ["tmp", "out"] then some Entry.dir else none

/-- The concrete scenario of the spec: `create("demo", "/tmp/out")` with
`/tmp/out` empty and no failing operation. -/
def demoRun : FS × Outcome := create_project demoAssets noFail "demo" ["tmp", "out"] tmpOutFS

/-- A second concrete run in the same output directory with a different
project name. -/
def demo2Run : FS × Outcome := create_project demoAssets noFail "demo2" ["tmp", "out"] tmpOutFS

/-- `create("a\nb", "/tmp/out")`: a project name containing a newline
(newlines are legal in POSIX path segments). -/
def nlNameRun : FS × Outcome := create_project demoAssets noFail "a\nb" ["tmp", "out"] tmpOutFS

/-- `create("", "/tmp/newdir")`: empty project name, output directory
absent. -/
def emptyNameRun : FS × Outcome := create_project demoAssets noFail "" ["tmp", "newdir"] tmpOutFS

/-- An oracle that makes the write of `app/core/config.py` inside the demo
project fail (e.g. permission denied on that path). -/
def failConfigDemo : List String → Bool :=
  fun p => decide (p = ["tmp", "out", "demo", "app", "core", "config.py"])

/-- The demo run with the failing `app/core/config.py` write. -/
def demoFailRun : FS × Outcome :=
  create_project demoAssets failConfigDemo "demo" ["tmp", "out"] tmpOutFS

/-- `needle` is an initial segment of `hay` (character lists). -/
def charsInit : List Char → List Char → Bool
  | [], _ => true
  | _ :: _, [] => false
  | a :: as, b :: bs => a == b && charsInit as bs

/-- `needle` occurs contiguously somewhere in `hay` (character lists). -/
def charsSub (needle : List Char) : List Char → Bool
  | [] => needle.isEmpty
  | c :: cs => charsInit needle (c :: cs) || charsSub needle cs

/-- Substring test: `needle` occurs in `hay`. -/
def strContains (hay needle : String) : Bool := charsSub needle.data hay.data

/-- Split a character list at every occurrence of `sep`. -/
def splitCharAux (sep : Char) : List Char → List Char → List (List Char)
  | [], acc => [acc.reverse]
  | c :: cs, acc =>
    if c = sep then acc.reverse :: splitCharAux sep cs []
    else splitCharAux sep cs (c :: acc)

/-- The lines of a text (split on the newline character). -/
def strLines (s : String) : List String := (splitCharAux '\n' s.data []).map String.mk

/-- Whether the text `s` contains `line` as one of its lines. -/
def lineMem (s line : String) : Bool := (strLines s).contains line

/-- The first line of a text. -/
def firstLineStr (s : String) : String :=
  String.mk (s.data.takeWhile (fun c => decide (c ≠ '\n')))

/-- `p` lies strictly under `base`: `base` is an ancestor of `p` and
`p ≠ base`. -/
def strictUnder (base p : List String) : Bool :=
  isInitSeg base p && decide (p ≠ base)

/-- All target paths of the two manifests are absent under the project
directory `pd` in `fs` (the state of affairs when `output_dir` is empty or
`pd` is fresh on a real filesystem, where nothing can exist below a
non-existent directory). -/
def freshUnder (fs : FS) (pd : List String) : Bool :=
  (TEMPLATES.map (fun e => pd ++ e.1) ++ ROOT_FILES.map (fun e => pd ++ [e.1])).all
    (fun t => (fs t).isNone)

/-- The content the `TEMPLATES` loop ends up writing at a fresh target:
the asset content when the key names an existing asset, and the empty
string otherwise (empty key, or lenient degradation on a missing
asset). -/
def tmplContent (assets : String → Option String) (key : String) : String :=
  if key = "" then "" else (assets key).getD ""

/-- The pure effect of one `TEMPLATES` iteration on a fresh target:
create the parent chain, then write the resolved content. -/
def tmplWrite (assets : String → Option String) (pd : List String) (fs : FS)
    (e : List String × String) : FS :=
  fsWrite (mkdirAll fs (List.dropLast (pd ++ e.1))) (pd ++ e.1)
    (Entry.file (tmplContent assets e.2))

/-- The pure effect of one `ROOT_FILES` iteration: copy when the asset
exists, otherwise leave the filesystem unchanged. -/
def rootWrite (assets : String → Option String) (pd : List String) (fs : FS)
    (e : String × String) : FS :=
  match assets e.2 with
  | some c => fsWrite fs (pd ++ [e.1]) (Entry.file c)
  | none => fs

/-- The final filesystem of a successful failure-free run, in explicit
fold form. -/
def scaffoldFS (assets : String → Option String) (name : String) (out : List String)
    (fs : FS) : FS :=
  fsWrite
    (fsWrite
      (ROOT_FILES.foldl (rootWrite assets (pathJoin out name))
        (TEMPLATES.foldl (tmplWrite assets (pathJoin out name))
          (mkdirAll fs (pathJoin out name))))
      (pathJoin out name ++ [".env.example"]) (Entry.file envExampleContent))
    (pathJoin out name ++ ["README.md"]) (Entry.file (readmeContent name))

/-- Two manifest entries are independent: distinct targets, and neither
target lies on the parent directory chain of the other. -/
def entryOk (e1 e2 : List String × String) : Bool :=
  decide (e1.1 ≠ e2.1) && !isInitSeg e1.1 (List.dropLast e2.1)
    && !isInitSeg e2.1 (List.dropLast e1.1)

/-! ## Path lemmas -/

theorem append_ne_append {pd a b : List String} (h : a ≠ b) : pd ++ a ≠ pd ++ b := by
  intro hc
  exact h (List.append_cancel_left hc)

theorem isInitSeg_append {pd a b : List String} :
    isInitSeg (pd ++ a) (pd ++ b) = isInitSeg a b := by
  induction pd with
  | nil => rfl
  | cons x xs ih => simp [isInitSeg, ih]

theorem isInitSeg_refl (l : List String) : isInitSeg l l = true := by
  induction l with
  | nil => rfl
  | cons x xs ih => simp [isInitSeg, ih]

theorem isInitSeg_length {a b : List String} (h : isInitSeg a b = true) :
    a.length ≤ b.length := by
  induction a generalizing b with
  | nil => simp
  | cons x xs ih =>
    cases b with
    | nil => simp [isInitSeg] at h
    | cons y ys =>
      simp only [isInitSeg, Bool.and_eq_true] at h
      simpa using Nat.succ_le_succ (ih h.2)

theorem isInitSeg_append_nonempty {pd a : List String} (h : a ≠ []) :
    isInitSeg (pd ++ a) pd = false := by
  cases hIs : isInitSeg (pd ++ a) pd with
  | false => rfl
  | true =>
    have hlen := isInitSeg_length hIs
    rw [List.length_append] at hlen
    have hpos : 0 < a.length := List.length_pos.mpr h
    omega

theorem isInitSeg_dropLast_self {a : List String} (h : a ≠ []) :
    isInitSeg a (List.dropLast a) = false := by
  cases hIs : isInitSeg a (List.dropLast a) with
  | false => rfl
  | true =>
    have hlen := isInitSeg_length hIs
    rw [List.length_dropLast] at hlen
    have hpos : 0 < a.length := List.length_pos.mpr h
    omega

theorem isInitSeg_of_append (pd a : List String) : isInitSeg pd (pd ++ a) = true := by
  have h : isInitSeg (pd ++ []) (pd ++ a) = isInitSeg [] a := isInitSeg_append
  simpa using h

/-! ## Filesystem operation lemmas -/

theorem fsWrite_self (fs : FS) (p : List String) (e : Entry) :
    fsWrite fs p e p = some e := by
  simp [fsWrite]

theorem fsWrite_ne {q p : List String} (fs : FS) (e : Entry) (h : q ≠ p) :
    fsWrite fs p e q = fs q := by
  simp [fsWrite, h]

theorem mkdirAll_self {fs : FS} {p : List String} (h : fs p = none) :
    mkdirAll fs p p = some Entry.dir := by
  simp [mkdirAll, isInitSeg_refl, h]

theorem mkdirAll_skip {fs : FS} {p q : List String} (h : isInitSeg q p = false) :
    mkdirAll fs p q = fs q := by
  simp [mkdirAll, h]

theorem mkdirAll_isSome {fs : FS} {p q : List String} (h : (fs q).isSome = true) :
    mkdirAll fs p q = fs q := by
  cases hq : fs q with
  | none => rw [hq] at h; simp at h
  | some v => simp [mkdirAll, hq]

theorem mkdirAll_fill {fs : FS} {p q : List String} (hseg : isInitSeg q p = true)
    (h : fs q = none) : mkdirAll fs p q = some Entry.dir := by
  simp [mkdirAll, hseg, h]

theorem tmplWrite_hit (assets : String → Option String) (pd : List String) (fs : FS)
    (e : List String × String) :
    tmplWrite assets pd fs e (pd ++ e.1) = some (Entry.file (tmplContent assets e.2)) := by
  unfold tmplWrite
  exact fsWrite_self _ _ _

theorem tmplWrite_skip {t : List String} {e : List String × String}
    (assets : String → Option String) (pd : List String) (fs : FS)
    (hne : t ≠ e.1) (hseg : isInitSeg t (List.dropLast e.1) = false) (hE : e.1 ≠ []) :
    tmplWrite assets pd fs e (pd ++ t) = fs (pd ++ t) := by
  unfold tmplWrite
  rw [fsWrite_ne _ _ (append_ne_append hne)]
  rw [List.dropLast_append_of_ne_nil pd hE]
  rw [mkdirAll_skip]
  rw [isInitSeg_append]
  exact hseg

theorem rootWrite_skip {q : List String} {e : String × String}
    (assets : String → Option String) (pd : List String) (fs : FS)
    (h : q ≠ pd ++ [e.1]) : rootWrite assets pd fs e q = fs q := by
  unfold rootWrite
  cases assets e.2 with
  | none => rfl
  | some c => exact fsWrite_ne _ _ h

/-! ## Collapsing a failure-free run to its fold form -/

theorem opThen_ok (fs2 : FS) (k : FS → FS × Outcome) : opThen (fs2, none) k = k fs2 := rfl

theorem opThen_err (fs2 : FS) (err : List String) (k : FS → FS × Outcome) :
    opThen (fs2, some err) k = (fs2, Outcome.raised err) := rfl

theorem opThen_code_inv {r : FS × Option (List String)} {k : FS → FS × Outcome} {n : Nat}
    (h : (opThen r k).2 = Outcome.code n) : r.2 = none ∧ (k r.1).2 = Outcome.code n := by
  obtain ⟨fs2, e⟩ := r
  cases e with
  | none => exact ⟨rfl, h⟩
  | some err => exact absurd h (by simp [opThen])

theorem stepTemplate_noFail (assets : String → Option String) (pd : List String)
    (e : List String × String) (fs : FS) (hE : e.1 ≠ [])
    (hfresh : fs (pd ++ e.1) = none) :
    stepTemplate assets noFail pd e fs = (tmplWrite assets pd fs e, none) := by
  have hseg : isInitSeg (pd ++ e.1) (pd ++ List.dropLast e.1) = false := by
    rw [isInitSeg_append]
    exact isInitSeg_dropLast_self hE
  have hmk : mkdirAll fs (List.dropLast (pd ++ e.1)) (pd ++ e.1) = none := by
    rw [List.dropLast_append_of_ne_nil pd hE, mkdirAll_skip hseg, hfresh]
  by_cases hkey : e.2 = ""
  · simp [stepTemplate, mkdirOp, noFail, touchOp, hmk, tmplWrite, tmplContent, hkey]
  · cases hasset : assets e.2 with
    | none =>
      simp [stepTemplate, mkdirOp, noFail, touchOp, hmk, tmplWrite, tmplContent, hkey, hasset]
    | some c =>
      simp [stepTemplate, mkdirOp, noFail, copyOp, tmplWrite, tmplContent, hkey, hasset]

theorem entryOk_unpack {e1 e2 : List String × String} (h : entryOk e1 e2 = true) :
    e1.1 ≠ e2.1 ∧ isInitSeg e1.1 (List.dropLast e2.1) = false
      ∧ isInitSeg e2.1 (List.dropLast e1.1) = false := by
  simp only [entryOk, Bool.and_eq_true, Bool.not_eq_true', decide_eq_true_eq] at h
  exact ⟨h.1.1, h.1.2, h.2⟩

theorem runSteps_map_tmpl (assets : String → Option String) (pd : List String)
    (l : List (List String × String)) (fs : FS)
    (hne : ∀ e ∈ l, e.1 ≠ [])
    (hpair : l.Pairwise (fun a b => entryOk a b = true))
    (hfresh : ∀ e ∈ l, fs (pd ++ e.1) = none) :
    runSteps (l.map (stepTemplate assets noFail pd)) fs
      = (l.foldl (tmplWrite assets pd) fs, none) := by
  induction l generalizing fs with
  | nil => rfl
  | cons e l ih =>
    have hEe : e.1 ≠ [] := hne e (by simp)
    rw [List.map_cons, List.foldl_cons, runSteps,
      stepTemplate_noFail assets pd e fs hEe (hfresh e (by simp))]
    rcases hpair with _ | ⟨hhead, htail⟩
    refine ih (tmplWrite assets pd fs e) (fun e2 he2 => hne e2 (by simp [he2])) htail ?_
    intro e2 he2
    obtain ⟨hne12, _hseg1, hseg2⟩ := entryOk_unpack (hhead e2 he2)
    rw [tmplWrite_skip assets pd fs (fun hc => hne12 hc.symm) hseg2 hEe]
    exact hfresh e2 (by simp [he2])

theorem stepRoot_noFail (assets : String → Option String) (pd : List String)
    (e : String × String) (fs : FS) :
    stepRoot assets noFail pd e fs = (rootWrite assets pd fs e, none) := by
  unfold stepRoot rootWrite
  cases assets e.2 with
  | none => rfl
  | some c => rfl

theorem runSteps_map_root (assets : String → Option String) (pd : List String)
    (l : List (String × String)) (fs : FS) :
    runSteps (l.map (stepRoot assets noFail pd)) fs
      = (l.foldl (rootWrite assets pd) fs, none) := by
  induction l generalizing fs with
  | nil => rfl
  | cons e l ih =>
    rw [List.map_cons, List.foldl_cons, runSteps, stepRoot_noFail]
    exact ih _

theorem mkdirOp_noFail (p : List String) (fs : FS) :
    mkdirOp noFail p fs = (mkdirAll fs p, none) := rfl

theorem writeTextOp_noFail (t : List String) (c : String) (fs : FS) :
    writeTextOp noFail t c fs = (fsWrite fs t (Entry.file c), none) := rfl

theorem TEMPLATES_targets_nonempty : ∀ e ∈ TEMPLATES, e.1 ≠ [] := by decide

theorem TEMPLATES_pairwise : TEMPLATES.Pairwise (fun a b => entryOk a b = true) := by decide

theorem freshUnder_tmpl {fs : FS} {pd : List String} (h : freshUnder fs pd = true) :
    ∀ e ∈ TEMPLATES, fs (pd ++ e.1) = none := by
  intro e he
  simp only [freshUnder, List.all_append, Bool.and_eq_true, List.all_eq_true] at h
  have hx := h.1 (pd ++ e.1) (List.mem_map_of_mem _ he)
  simpa [Option.isNone_iff_eq_none] using hx

theorem freshUnder_root {fs : FS} {pd : List String} (h : freshUnder fs pd = true) :
    ∀ e ∈ ROOT_FILES, fs (pd ++ [e.1]) = none := by
  intro e he
  simp only [freshUnder, List.all_append, Bool.and_eq_true, List.all_eq_true] at h
  have hx := h.2 (pd ++ [e.1]) (List.mem_map_of_mem _ he)
  simpa [Option.isNone_iff_eq_none] using hx

theorem create_with_noFail (templates : List (List String × String))
    (roots : List (String × String)) (assets : String → Option String)
    (name : String) (out : List String) (fs : FS)
    (hne : ∀ e ∈ templates, e.1 ≠ [])
    (hpair : templates.Pairwise (fun a b => entryOk a b = true))
    (h0 : fs (pathJoin out name) = none)
    (hfr : ∀ e ∈ templates, fs (pathJoin out name ++ e.1) = none) :
    create_project_with templates roots assets noFail name out fs
      = (fsWrite
          (fsWrite
            (roots.foldl (rootWrite assets (pathJoin out name))
              (templates.foldl (tmplWrite assets (pathJoin out name))
                (mkdirAll fs (pathJoin out name))))
            (pathJoin out name ++ [".env.example"]) (Entry.file envExampleContent))
          (pathJoin out name ++ ["README.md"]) (Entry.file (readmeContent name)),
        Outcome.code 0) := by
  have hfr2 : ∀ e ∈ templates,
      (mkdirAll fs (pathJoin out name)) (pathJoin out name ++ e.1) = none := by
    intro e he
    rw [mkdirAll_skip (isInitSeg_append_nonempty (hne e he))]
    exact hfr e he
  simp only [create_project_with]
  rw [if_neg (by simp [h0])]
  simp only [mkdirOp_noFail, opThen_ok]
  rw [runSteps_map_tmpl assets (pathJoin out name) templates
    (mkdirAll fs (pathJoin out name)) hne hpair hfr2]
  simp only [opThen_ok]
  rw [runSteps_map_root]
  simp only [opThen_ok, writeTextOp_noFail]

/-- A failure-free `create_project` call on a fresh destination succeeds
with exit code 0 and produces exactly the fold-form filesystem
`scaffoldFS`. -/
theorem create_noFail (assets : String → Option String) (name : String) (out : List String)
    (fs : FS) (h0 : fs (pathJoin out name) = none)
    (hfr : freshUnder fs (pathJoin out name) = true) :
    create_project assets noFail name out fs
      = (scaffoldFS assets name out fs, Outcome.code 0) := by
  unfold create_project scaffoldFS
  exact create_with_noFail TEMPLATES ROOT_FILES assets name out fs
    TEMPLATES_targets_nonempty TEMPLATES_pairwise h0 (freshUnder_tmpl hfr)

/-! ## Reading entries out of the fold form -/

theorem self_ne_append {pd a : List String} (h : a ≠ []) : pd ≠ pd ++ a := by
  intro hc
  have h2 : pd ++ [] = pd ++ a := by simpa using hc
  exact h (List.append_cancel_left h2).symm

theorem foldl_tmpl_skip (assets : String → Option String) (pd : List String)
    (l : List (List String × String)) (fs : FS) (t : List String)
    (h : ∀ e ∈ l, t ≠ e.1 ∧ isInitSeg t (List.dropLast e.1) = false ∧ e.1 ≠ []) :
    (l.foldl (tmplWrite assets pd) fs) (pd ++ t) = fs (pd ++ t) := by
  induction l generalizing fs with
  | nil => rfl
  | cons e l ih =>
    rw [List.foldl_cons, ih _ (fun e2 he2 => h e2 (by simp [he2]))]
    obtain ⟨h1, h2, h3⟩ := h e (by simp)
    exact tmplWrite_skip assets pd fs h1 h2 h3

theorem foldl_tmpl_keeps (assets : String → Option String) (pd : List String)
    (l : List (List String × String)) (fs : FS) (q : List String)
    (hsome : (fs q).isSome = true) (hne : ∀ e ∈ l, q ≠ pd ++ e.1) :
    (l.foldl (tmplWrite assets pd) fs) q = fs q := by
  induction l generalizing fs with
  | nil => rfl
  | cons e l ih =>
    have hstep : (tmplWrite assets pd fs e) q = fs q := by
      unfold tmplWrite
      rw [fsWrite_ne _ _ (hne e (by simp)), mkdirAll_isSome hsome]
    rw [List.foldl_cons,
      ih _ (by rw [hstep]; exact hsome) (fun e2 he2 => hne e2 (by simp [he2])), hstep]

theorem foldl_tmpl_hit (assets : String → Option String) (pd : List String)
    (l1 : List (List String × String)) (e : List String × String)
    (l2 : List (List String × String)) (fs : FS)
    (h : ∀ e2 ∈ l2, e.1 ≠ e2.1 ∧ isInitSeg e.1 (List.dropLast e2.1) = false ∧ e2.1 ≠ []) :
    ((l1 ++ e :: l2).foldl (tmplWrite assets pd) fs) (pd ++ e.1)
      = some (Entry.file (tmplContent assets e.2)) := by
  rw [List.foldl_append, List.foldl_cons]
  rw [foldl_tmpl_skip assets pd l2 _ e.1 h]
  exact tmplWrite_hit assets pd _ e

theorem rootWrite_miss {e : String × String} (assets : String → Option String)
    (pd : List String) (fs : FS) (h : assets e.2 = none) :
    rootWrite assets pd fs e = fs := by
  unfold rootWrite
  rw [h]

theorem foldl_root_skip (assets : String → Option String) (pd : List String)
    (l : List (String × String)) (fs : FS) (q : List String)
    (h : ∀ e ∈ l, q ≠ pd ++ [e.1] ∨ assets e.2 = none) :
    (l.foldl (rootWrite assets pd) fs) q = fs q := by
  induction l generalizing fs with
  | nil => rfl
  | cons e l ih =>
    rw [List.foldl_cons, ih _ (fun e2 he2 => h e2 (by simp [he2]))]
    cases h e (by simp) with
    | inl hne => exact rootWrite_skip assets pd fs hne
    | inr hmiss => rw [rootWrite_miss assets pd fs hmiss]

theorem scaffoldFS_nested (assets : String → Option String) (name : String)
    (out : List String) (fs : FS) (l1 l2 : List (List String × String))
    (e : List String × String)
    (hsplit : TEMPLATES = l1 ++ e :: l2)
    (h2 : ∀ e2 ∈ l2, e.1 ≠ e2.1 ∧ isInitSeg e.1 (List.dropLast e2.1) = false ∧ e2.1 ≠ [])
    (hroot : ∀ e2 ∈ ROOT_FILES, e.1 ≠ [e2.1])
    (henv : e.1 ≠ [".env.example"]) (hreadme : e.1 ≠ ["README.md"]) :
    scaffoldFS assets name out fs (pathJoin out name ++ e.1)
      = some (Entry.file (tmplContent assets e.2)) := by
  unfold scaffoldFS
  rw [fsWrite_ne _ _ (append_ne_append hreadme),
    fsWrite_ne _ _ (append_ne_append henv),
    foldl_root_skip assets _ ROOT_FILES _ _
      (fun e2 he2 => Or.inl (append_ne_append (hroot e2 he2))),
    hsplit]
  exact foldl_tmpl_hit assets _ l1 e l2 _ h2

theorem scaffoldFS_skip (assets : String → Option String) (name : String)
    (out : List String) (fs : FS) (t : List String) (ht : t ≠ [])
    (htm : ∀ e ∈ TEMPLATES, t ≠ e.1 ∧ isInitSeg t (List.dropLast e.1) = false ∧ e.1 ≠ [])
    (hrt : ∀ e ∈ ROOT_FILES, t ≠ [e.1] ∨ assets e.2 = none)
    (henv : t ≠ [".env.example"]) (hreadme : t ≠ ["README.md"]) :
    scaffoldFS assets name out fs (pathJoin out name ++ t)
      = fs (pathJoin out name ++ t) := by
  unfold scaffoldFS
  rw [fsWrite_ne _ _ (append_ne_append hreadme),
    fsWrite_ne _ _ (append_ne_append henv),
    foldl_root_skip assets _ ROOT_FILES _ _
      (fun e2 he2 => (hrt e2 he2).imp_left (fun hx => append_ne_append hx)),
    foldl_tmpl_skip assets _ TEMPLATES _ t htm,
    mkdirAll_skip (isInitSeg_append_nonempty ht)]

theorem scaffoldFS_env (assets : String → Option String) (name : String)
    (out : List String) (fs : FS) :
    scaffoldFS assets name out fs (pathJoin out name ++ [".env.example"])
      = some (Entry.file envExampleContent) := by
  unfold scaffoldFS
  rw [fsWrite_ne _ _ (append_ne_append (by decide))]
  exact fsWrite_self _ _ _

theorem scaffoldFS_readme (assets : String → Option String) (name : String)
    (out : List String) (fs : FS) :
    scaffoldFS assets name out fs (pathJoin out name ++ ["README.md"])
      = some (Entry.file (readmeContent name)) := by
  unfold scaffoldFS
  exact fsWrite_self _ _ _

theorem scaffoldFS_pd (assets : String → Option String) (name : String)
    (out : List String) (fs : FS) (h0 : fs (pathJoin out name) = none) :
    scaffoldFS assets name out fs (pathJoin out name) = some Entry.dir := by
  unfold scaffoldFS
  rw [fsWrite_ne _ _ (self_ne_append (by decide)),
    fsWrite_ne _ _ (self_ne_append (by decide)),
    foldl_root_skip assets _ ROOT_FILES _ _
      (fun e2 _ => Or.inl (self_ne_append (by simp))),
    foldl_tmpl_keeps assets _ TEMPLATES _ _
      (by rw [mkdirAll_self h0]; rfl)
      (fun e he => self_ne_append (TEMPLATES_targets_nonempty e he)),
    mkdirAll_self h0]

/-! ## Inverting a successful run -/

theorem opThen_ok' {r : FS × Option (List String)} (k : FS → FS × Outcome)
    (h : r.2 = none) : opThen r k = k r.1 := by
  obtain ⟨a, b⟩ := r
  cases b with
  | none => rfl
  | some err => simp at h

theorem mkdirOp_ok_inv {failAt : List String → Bool} {p : List String} {fs : FS}
    (h : (mkdirOp failAt p fs).2 = none) :
    (mkdirOp failAt p fs).1 = mkdirAll fs p := by
  unfold mkdirOp at h ⊢
  cases hf : failAt p with
  | false => simp [hf]
  | true => simp [hf] at h

theorem writeTextOp_ok_inv {failAt : List String → Bool} {t : List String} {c : String}
    {fs : FS} (h : (writeTextOp failAt t c fs).2 = none) :
    (writeTextOp failAt t c fs).1 = fsWrite fs t (Entry.file c) := by
  unfold writeTextOp at h ⊢
  cases hf : failAt t with
  | false => simp [hf]
  | true => simp [hf] at h

theorem fsWrite_isSome {fs : FS} {p q : List String} {e : Entry}
    (h : (fs q).isSome = true) : ((fsWrite fs p e) q).isSome = true := by
  unfold fsWrite
  by_cases hq : q = p <;> simp [hq, h]

theorem mkdirAll_isSome' {fs : FS} {p q : List String} (h : (fs q).isSome = true) :
    ((mkdirAll fs p) q).isSome = true := by
  rw [mkdirAll_isSome h]
  exact h

theorem mkdirOp_fst_isSome {failAt : List String → Bool} {p q : List String} {fs : FS}
    (h : (fs q).isSome = true) : (((mkdirOp failAt p fs).1) q).isSome = true := by
  unfold mkdirOp
  split
  · exact h
  · exact mkdirAll_isSome' h

theorem copyOp_fst_isSome {failAt : List String → Bool} {t q : List String} {c : String}
    {fs : FS} (h : (fs q).isSome = true) : (((copyOp failAt t c fs).1) q).isSome = true := by
  unfold copyOp
  split
  · exact h
  · exact fsWrite_isSome h

theorem touchOp_fst_isSome {failAt : List String → Bool} {t q : List String}
    {fs : FS} (h : (fs q).isSome = true) : (((touchOp failAt t fs).1) q).isSome = true := by
  unfold touchOp
  split
  · exact h
  · split
    · exact h
    · exact fsWrite_isSome h

theorem writeTextOp_fst_isSome {failAt : List String → Bool} {t q : List String} {c : String}
    {fs : FS} (h : (fs q).isSome = true) : (((writeTextOp failAt t c fs).1) q).isSome = true := by
  unfold writeTextOp
  split
  · exact h
  · exact fsWrite_isSome h

theorem stepTemplate_mono {assets : String → Option String} {failAt : List String → Bool}
    {pd q : List String} {e : List String × String} {fs : FS}
    (h : (fs q).isSome = true) :
    (((stepTemplate assets failAt pd e fs).1) q).isSome = true := by
  simp only [stepTemplate]
  rcases hmk : mkdirOp failAt (List.dropLast (pd ++ e.1)) fs with ⟨fs2, res⟩
  have h2 : (fs2 q).isSome = true := by
    have hx := @mkdirOp_fst_isSome failAt (List.dropLast (pd ++ e.1)) q fs h
    rw [hmk] at hx
    exact hx
  cases res with
  | some err => exact h2
  | none =>
    simp only []
    split
    · split
      · exact copyOp_fst_isSome h2
      · exact touchOp_fst_isSome h2
    · exact touchOp_fst_isSome h2

theorem stepRoot_mono {assets : String → Option String} {failAt : List String → Bool}
    {pd q : List String} {e : String × String} {fs : FS}
    (h : (fs q).isSome = true) :
    (((stepRoot assets failAt pd e fs).1) q).isSome = true := by
  unfold stepRoot
  split
  · exact copyOp_fst_isSome h
  · exact h

theorem runSteps_mono (steps : List (FS → FS × Option (List String))) (fs : FS)
    (q : List String)
    (hsteps : ∀ s ∈ steps, ∀ f : FS, (f q).isSome = true → (((s f).1) q).isSome = true)
    (h : (fs q).isSome = true) : (((runSteps steps fs).1) q).isSome = true := by
  induction steps generalizing fs with
  | nil => exact h
  | cons s rest ih =>
    unfold runSteps
    rcases hs : s fs with ⟨fs2, res⟩
    have h2 : (fs2 q).isSome = true := by
      have hx := hsteps s (by simp) fs h
      rw [hs] at hx
      exact hx
    cases res with
    | none => exact ih fs2 (fun s2 hs2 f hf => hsteps s2 (by simp [hs2]) f hf) h2
    | some err => exact h2


theorem create_struct (assets : String → Option String) (failAt : List String → Bool)
    (name : String) (out : List String) (fs : FS) :
    (∃ err, (create_project assets failAt name out fs).2 = Outcome.raised err) ∨
    create_project assets failAt name out fs = (fs, Outcome.code 1) ∨
    (fs (pathJoin out name) = none ∧
      ∃ fs3 : FS,
        (fs3 (pathJoin out name)).isSome = true ∧
        create_project assets failAt name out fs
          = (fsWrite (fsWrite fs3 (pathJoin out name ++ [".env.example"])
              (Entry.file envExampleContent))
            (pathJoin out name ++ ["README.md"]) (Entry.file (readmeContent name)),
            Outcome.code 0)) := by
  simp only [create_project, create_project_with]
  by_cases hex : (fs (pathJoin out name)).isSome = true
  · rw [if_pos hex]
    exact Or.inr (Or.inl rfl)
  · have h0 : fs (pathJoin out name) = none := by
      cases hfs : fs (pathJoin out name) with
      | none => rfl
      | some v => rw [hfs] at hex; simp at hex
    rw [if_neg hex]
    rcases hmk : mkdirOp failAt (pathJoin out name) fs with ⟨fs1, res1⟩
    cases res1 with
    | some err => exact Or.inl ⟨err, by simp [opThen]⟩
    | none =>
      have hfs1 : fs1 = mkdirAll fs (pathJoin out name) := by
        have hx := @mkdirOp_ok_inv failAt (pathJoin out name) fs (by rw [hmk])
        rw [hmk] at hx
        exact hx
      have h1pd : (fs1 (pathJoin out name)).isSome = true := by
        rw [hfs1, mkdirAll_self h0]
        rfl
      simp only [opThen]
      rcases hts : runSteps
          (TEMPLATES.map (stepTemplate assets failAt (pathJoin out name))) fs1 with ⟨fs2, res2⟩
      have h2pd : (fs2 (pathJoin out name)).isSome = true := by
        have hx := runSteps_mono
          (TEMPLATES.map (stepTemplate assets failAt (pathJoin out name)))
          fs1 (pathJoin out name)
          (fun s hs f hf => by
            obtain ⟨e, _he, rfl⟩ := List.mem_map.mp hs
            exact stepTemplate_mono hf) h1pd
        rw [hts] at hx
        exact hx
      cases res2 with
      | some err => exact Or.inl ⟨err, by simp [opThen]⟩
      | none =>
        simp only [opThen]
        rcases hrs : runSteps
            (ROOT_FILES.map (stepRoot assets failAt (pathJoin out name))) fs2 with ⟨fs3, res3⟩
        have h3pd : (fs3 (pathJoin out name)).isSome = true := by
          have hx := runSteps_mono
            (ROOT_FILES.map (stepRoot assets failAt (pathJoin out name)))
            fs2 (pathJoin out name)
            (fun s hs f hf => by
              obtain ⟨e, _he, rfl⟩ := List.mem_map.mp hs
              exact stepRoot_mono hf) h2pd
          rw [hrs] at hx
          exact hx
        cases res3 with
        | some err => exact Or.inl ⟨err, by simp [opThen]⟩
        | none =>
          simp only [opThen]
          rcases henv : writeTextOp failAt (pathJoin out name ++ [".env.example"])
              envExampleContent fs3 with ⟨fs4, res4⟩
          cases res4 with
          | some err => exact Or.inl ⟨err, by simp [opThen]⟩
          | none =>
            have hfs4 : fs4 = fsWrite fs3 (pathJoin out name ++ [".env.example"])
                (Entry.file envExampleContent) := by
              have hx := @writeTextOp_ok_inv failAt
                (pathJoin out name ++ [".env.example"]) envExampleContent
                fs3 (by rw [henv])
              rw [henv] at hx
              exact hx
            simp only [opThen]
            rcases hrm : writeTextOp failAt (pathJoin out name ++ ["README.md"])
                (readmeContent name) fs4 with ⟨fs5, res5⟩
            cases res5 with
            | some err => exact Or.inl ⟨err, by simp [opThen]⟩
            | none =>
              have hfs5 : fs5 = fsWrite fs4 (pathJoin out name ++ ["README.md"])
                  (Entry.file (readmeContent name)) := by
                have hx := @writeTextOp_ok_inv failAt
                  (pathJoin out name ++ ["README.md"]) (readmeContent name)
                  fs4 (by rw [hrm])
                rw [hrm] at hx
                exact hx
              refine Or.inr (Or.inr ⟨h0, fs3, h3pd, ?_⟩)
              simp only [opThen]
              rw [hfs5, hfs4]

theorem create_code0_struct {assets : String → Option String} {failAt : List String → Bool}
    {name : String} {out : List String} {fs : FS}
    (h : (create_project assets failAt name out fs).2 = Outcome.code 0) :
    fs (pathJoin out name) = none ∧
    ∃ fs3 : FS,
      (fs3 (pathJoin out name)).isSome = true ∧
      (create_project assets failAt name out fs).1
        = fsWrite (fsWrite fs3 (pathJoin out name ++ [".env.example"])
            (Entry.file envExampleContent))
          (pathJoin out name ++ ["README.md"]) (Entry.file (readmeContent name)) := by
  rcases create_struct assets failAt name out fs with ⟨err, hr⟩ | hr | ⟨h0, fs3, h3, hr⟩
  · rw [hr] at h
    simp at h
  · rw [hr] at h
    simp at h
  · exact ⟨h0, fs3, h3, by rw [hr]⟩

/-! ## String content lemmas -/

theorem charsInit_refl (l : List Char) : charsInit l l = true := by
  induction l with
  | nil => rfl
  | cons c cs ih => simp [charsInit, ih]

theorem charsSub_self (n : List Char) : charsSub n n = true := by
  cases n with
  | nil => rfl
  | cons c cs => simp [charsSub, charsInit_refl]

theorem charsSub_append (x n : List Char) : charsSub n (x ++ n) = true := by
  induction x with
  | nil => simpa using charsSub_self n
  | cons c cs ih => simp [charsSub, ih]

theorem strContains_append_right (x n : String) : strContains (x ++ n) n = true := by
  unfold strContains
  rw [String.data_append]
  exact charsSub_append x.data n.data

theorem firstLine_readme {name : String}
    (h : name.data.all (fun c => decide (c ≠ '\n')) = true) :
    firstLineStr (readmeContent name) = "# " ++ name := by
  have hall : ∀ c ∈ name.data, (fun c => decide (c ≠ '\n')) c = true := by
    intro c hc
    exact List.all_eq_true.mp h c hc
  unfold firstLineStr readmeContent
  apply String.ext
  have hall2 : ∀ c ∈ name.data, (fun c => !decide (c = '\n')) c = true := by
    intro c hc
    simpa using hall c hc
  simp only [String.data_append, List.append_assoc]
  simp [List.takeWhile_cons, List.takeWhile_append_of_pos hall2]

/-! ## Claims -/

/-- C1, counterexample: the concrete scenario `create("demo", "/tmp/out")`
with `/tmp/out` empty succeeds, but the generated `.env.example` does not
contain the project name `demo` anywhere — in particular it does not
contain the line `PROJECT_NAME=demo` — because line 68 of
`init_project.py` writes the fixed literal `PROJECT_NAME=fastapi-app`. -/
theorem C1_counterexample :
    demoRun.2 = Outcome.code 0 ∧
    demoRun.1 ["tmp", "out", "demo", ".env.example"] = some (Entry.file envExampleContent) ∧
    strContains envExampleContent "demo" = false ∧
    lineMem envExampleContent "PROJECT_NAME=demo" = false :=
  ⟨by decide, by decide, by decide, by decide⟩

/-- C1, amended: after a successful `create(project_name, output_dir)` the
generated `.env.example` always holds the fixed content
`PROJECT_NAME=fastapi-app\nVERSION=0.1.0\nDEBUG=false\n`, independent of
the project name; it contains the line `PROJECT_NAME=fastapi-app`, not a
line naming the project. -/
theorem C1_env_fixed (assets : String → Option String) (failAt : List String → Bool)
    (name : String) (out : List String) (fs : FS)
    (h : (create_project assets failAt name out fs).2 = Outcome.code 0) :
    (create_project assets failAt name out fs).1 (pathJoin out name ++ [".env.example"])
      = some (Entry.file envExampleContent) ∧
    lineMem envExampleContent "PROJECT_NAME=fastapi-app" = true := by
  obtain ⟨h0, fs3, hsome3, hval⟩ := create_code0_struct h
  refine ⟨?_, by decide⟩
  rw [hval, fsWrite_ne _ _ (append_ne_append (by decide)), fsWrite_self]

/-- Witness for `C1_env_fixed` at the concrete demo scenario. -/
theorem C1_env_fixed_witness :
    (create_project demoAssets noFail "demo" ["tmp", "out"] tmpOutFS).1
      (pathJoin ["tmp", "out"] "demo" ++ [".env.example"]) = some (Entry.file envExampleContent) ∧
    lineMem envExampleContent "PROJECT_NAME=fastapi-app" = true :=
  C1_env_fixed demoAssets noFail "demo" ["tmp", "out"] tmpOutFS (by decide)

/-- C2: if `output_dir/project_name` already exists (file or directory),
`create_project` returns exit code 1 with the filesystem unchanged (no
mutation at all); consequently calling `create_project` twice with the
same arguments succeeds the first time and is rejected the second time
with the filesystem exactly as the first call left it. -/
theorem C2_reject_existing (assets : String → Option String) (failAt : List String → Bool)
    (name : String) (out : List String) (fs : FS) :
    ((fs (pathJoin out name)).isSome = true →
      create_project assets failAt name out fs = (fs, Outcome.code 1)) ∧
    (∀ fs1 : FS, create_project assets failAt name out fs = (fs1, Outcome.code 0) →
      create_project assets failAt name out fs1 = (fs1, Outcome.code 1)) := by
  constructor
  · intro hex
    simp only [create_project, create_project_with]
    rw [if_pos hex]
  · intro fs1 hrun
    have h2 : (create_project assets failAt name out fs).2 = Outcome.code 0 := by
      rw [hrun]
    obtain ⟨h0, fs3, hsome3, hval⟩ := create_code0_struct h2
    have h1eq : (create_project assets failAt name out fs).1 = fs1 := by rw [hrun]
    have hpd : (fs1 (pathJoin out name)).isSome = true := by
      rw [← h1eq, hval]
      exact fsWrite_isSome (fsWrite_isSome hsome3)
    simp only [create_project, create_project_with]
    rw [if_pos hpd]

/-- Witness for `C2_reject_existing`: the concrete demo double-call.  The
first call succeeds; the second call on the filesystem produced by the
first returns exit code 1 and changes nothing. -/
theorem C2_reject_existing_witness :
    create_project demoAssets noFail "demo" ["tmp", "out"] demoRun.1
      = (demoRun.1, Outcome.code 1) :=
  (C2_reject_existing demoAssets noFail "demo" ["tmp", "out"] tmpOutFS).2 demoRun.1 rfl

/-- C4, counterexample: for the project name `a\nb` (a legal single path
segment containing a newline), `create` succeeds, the README content is
`# a\nb\n\nFastAPI Clean Architecture Application\n`, but its first line
`# a` does not contain the project name. -/
theorem C4_counterexample :
    nlNameRun.2 = Outcome.code 0 ∧
    nlNameRun.1 ["tmp", "out", "a\nb", "README.md"]
      = some (Entry.file (readmeContent "a\nb")) ∧
    firstLineStr (readmeContent "a\nb") = "# a" ∧
    strContains (firstLineStr (readmeContent "a\nb")) "a\nb" = false :=
  ⟨by decide, by decide, by decide, by decide⟩

/-- C4, amended: after a successful `create`, the README content is
`# <project_name>` followed by the fixed description; whenever the
project name contains no newline, the README's first line is exactly
`# <project_name>` and therefore contains the literal project name. -/
theorem C4_readme_first_line (assets : String → Option String) (failAt : List String → Bool)
    (name : String) (out : List String) (fs : FS)
    (h : (create_project assets failAt name out fs).2 = Outcome.code 0) :
    (create_project assets failAt name out fs).1 (pathJoin out name ++ ["README.md"])
      = some (Entry.file (readmeContent name)) ∧
    (name.data.all (fun c => decide (c ≠ '\n')) = true →
      firstLineStr (readmeContent name) = "# " ++ name ∧
      strContains (firstLineStr (readmeContent name)) name = true) := by
  obtain ⟨h0, fs3, hsome3, hval⟩ := create_code0_struct h
  constructor
  · rw [hval, fsWrite_self]
  · intro hnl
    have hfl := firstLine_readme hnl
    refine ⟨hfl, ?_⟩
    rw [hfl]
    exact strContains_append_right "# " name

/-- Witness for `C4_readme_first_line` at the concrete demo scenario. -/
theorem C4_readme_first_line_witness :
    ((create_project demoAssets noFail "demo" ["tmp", "out"] tmpOutFS).1
        (pathJoin ["tmp", "out"] "demo" ++ ["README.md"])
      = some (Entry.file (readmeContent "demo")) ∧
    (("demo" : String).data.all (fun c => decide (c ≠ '\n')) = true →
      firstLineStr (readmeContent "demo") = "# " ++ "demo" ∧
      strContains (firstLineStr (readmeContent "demo")) "demo" = true)) ∧
    ("demo" : String).data.all (fun c => decide (c ≠ '\n')) = true :=
  ⟨C4_readme_first_line demoAssets noFail "demo" ["tmp", "out"] tmpOutFS (by decide), by decide⟩

/-- C3, amended: for every project name and fresh destination (the
`output_dir` empty case), a failure-free `create` succeeds and produces
every path of the section-6 layout: the project directory; all thirteen
nested targets, where the plain `__init__.py` files are empty but
`app/routers/__init__.py` carries the non-empty `routers_init.py`
template; the six embedded template files verbatim and non-empty;
`tests/conftest.py` (whose content is the `conftest.py` asset when the
asset directory has one, empty otherwise); and the synthesized
`.env.example` and `README.md`. -/
theorem C3_layout (extra : String → Option String) (name : String) (out : List String)
    (fs : FS) (h0 : fs (pathJoin out name) = none)
    (hfr : freshUnder fs (pathJoin out name) = true) :
    (create_project (repoAssets extra) noFail name out fs).2 = Outcome.code 0 ∧
    (create_project (repoAssets extra) noFail name out fs).1 (pathJoin out name) = some Entry.dir ∧
    (create_project (repoAssets extra) noFail name out fs).1 (pathJoin out name ++ ["app", "__init__.py"]) = some (Entry.file "") ∧
    (create_project (repoAssets extra) noFail name out fs).1 (pathJoin out name ++ ["app", "main.py"]) = some (Entry.file mainPyContent) ∧
    (create_project (repoAssets extra) noFail name out fs).1 (pathJoin out name ++ ["app", "core", "__init__.py"]) = some (Entry.file "") ∧
    (create_project (repoAssets extra) noFail name out fs).1 (pathJoin out name ++ ["app", "core", "config.py"]) = some (Entry.file configPyContent) ∧
    (create_project (repoAssets extra) noFail name out fs).1 (pathJoin out name ++ ["app", "core", "dependencies.py"]) = some (Entry.file dependenciesPyContent) ∧
    (create_project (repoAssets extra) noFail name out fs).1 (pathJoin out name ++ ["app", "routers", "__init__.py"]) = some (Entry.file routersInitPyContent) ∧
    (create_project (repoAssets extra) noFail name out fs).1 (pathJoin out name ++ ["app", "routers", "health.py"]) = some (Entry.file routerHealthPyContent) ∧
    (create_project (repoAssets extra) noFail name out fs).1 (pathJoin out name ++ ["app", "services", "__init__.py"]) = some (Entry.file "") ∧
    (create_project (repoAssets extra) noFail name out fs).1 (pathJoin out name ++ ["app", "services", "health_service.py"]) = some (Entry.file serviceHealthPyContent) ∧
    (create_project (repoAssets extra) noFail name out fs).1 (pathJoin out name ++ ["app", "schemas", "__init__.py"]) = some (Entry.file "") ∧
    (create_project (repoAssets extra) noFail name out fs).1 (pathJoin out name ++ ["app", "schemas", "health.py"]) = some (Entry.file schemasHealthPyContent) ∧
    (create_project (repoAssets extra) noFail name out fs).1 (pathJoin out name ++ ["tests", "__init__.py"]) = some (Entry.file "") ∧
    (create_project (repoAssets extra) noFail name out fs).1 (pathJoin out name ++ ["tests", "conftest.py"]) = some (Entry.file (tmplContent (repoAssets extra) "conftest.py")) ∧
    (create_project (repoAssets extra) noFail name out fs).1 (pathJoin out name ++ [".env.example"]) = some (Entry.file envExampleContent) ∧
    (create_project (repoAssets extra) noFail name out fs).1 (pathJoin out name ++ ["README.md"]) = some (Entry.file (readmeContent name)) ∧
    mainPyContent ≠ "" ∧ configPyContent ≠ "" ∧ dependenciesPyContent ≠ "" ∧ routersInitPyContent ≠ "" ∧ routerHealthPyContent ≠ "" ∧ serviceHealthPyContent ≠ "" ∧ schemasHealthPyContent ≠ "" := by
  have hrw := create_noFail (repoAssets extra) name out fs h0 hfr
  have hcode : (create_project (repoAssets extra) noFail name out fs).2 = Outcome.code 0 := by
    rw [hrw]
  have h1 : (create_project (repoAssets extra) noFail name out fs).1 = scaffoldFS (repoAssets extra) name out fs := by
    rw [hrw]
  exact ⟨hcode,
    (by
      rw [h1]
      exact scaffoldFS_pd (repoAssets extra) name out fs h0),
    (by
      rw [h1]
      have hx := scaffoldFS_nested (repoAssets extra) name out fs
          []
          [(["app", "main.py"], "main.py"),
          (["app", "core", "__init__.py"], ""),
          (["app", "core", "config.py"], "config.py"),
          (["app", "core", "dependencies.py"], "dependencies.py"),
          (["app", "routers", "__init__.py"], "routers_init.py"),
          (["app", "routers", "health.py"], "router_health.py"),
          (["app", "services", "__init__.py"], ""),
          (["app", "services", "health_service.py"], "service_health.py"),
          (["app", "schemas", "__init__.py"], ""),
          (["app", "schemas", "health.py"], "schemas_health.py"),
          (["tests", "__init__.py"], ""),
          (["tests", "conftest.py"], "conftest.py")]
          (["app", "__init__.py"], "") rfl (by decide) (by decide) (by decide) (by decide)
      rw [show tmplContent (repoAssets extra) "" = "" from rfl] at hx
      exact hx),
    (by
      rw [h1]
      have hx := scaffoldFS_nested (repoAssets extra) name out fs
          [(["app", "__init__.py"], "")]
          [(["app", "core", "__init__.py"], ""),
          (["app", "core", "config.py"], "config.py"),
          (["app", "core", "dependencies.py"], "dependencies.py"),
          (["app", "routers", "__init__.py"], "routers_init.py"),
          (["app", "routers", "health.py"], "router_health.py"),
          (["app", "services", "__init__.py"], ""),
          (["app", "services", "health_service.py"], "service_health.py"),
          (["app", "schemas", "__init__.py"], ""),
          (["app", "schemas", "health.py"], "schemas_health.py"),
          (["tests", "__init__.py"], ""),
          (["tests", "conftest.py"], "conftest.py")]
          (["app", "main.py"], "main.py") rfl (by decide) (by decide) (by decide) (by decide)
      rw [show tmplContent (repoAssets extra) "main.py" = mainPyContent from rfl] at hx
      exact hx),
    (by
      rw [h1]
      have hx := scaffoldFS_nested (repoAssets extra) name out fs
          [(["app", "__init__.py"], ""),
          (["app", "main.py"], "main.py")]
          [(["app", "core", "config.py"], "config.py"),
          (["app", "core", "dependencies.py"], "dependencies.py"),
          (["app", "routers", "__init__.py"], "routers_init.py"),
          (["app", "routers", "health.py"], "router_health.py"),
          (["app", "services", "__init__.py"], ""),
          (["app", "services", "health_service.py"], "service_health.py"),
          (["app", "schemas", "__init__.py"], ""),
          (["app", "schemas", "health.py"], "schemas_health.py"),
          (["tests", "__init__.py"], ""),
          (["tests", "conftest.py"], "conftest.py")]
          (["app", "core", "__init__.py"], "") rfl (by decide) (by decide) (by decide) (by decide)
      rw [show tmplContent (repoAssets extra) "" = "" from rfl] at hx
      exact hx),
    (by
      rw [h1]
      have hx := scaffoldFS_nested (repoAssets extra) name out fs
          [(["app", "__init__.py"], ""),
          (["app", "main.py"], "main.py"),
          (["app", "core", "__init__.py"], "")]
          [(["app", "core", "dependencies.py"], "dependencies.py"),
          (["app", "routers", "__init__.py"], "routers_init.py"),
          (["app", "routers", "health.py"], "router_health.py"),
          (["app", "services", "__init__.py"], ""),
          (["app", "services", "health_service.py"], "service_health.py"),
          (["app", "schemas", "__init__.py"], ""),
          (["app", "schemas", "health.py"], "schemas_health.py"),
          (["tests", "__init__.py"], ""),
          (["tests", "conftest.py"], "conftest.py")]
          (["app", "core", "config.py"], "config.py") rfl (by decide) (by decide) (by decide) (by decide)
      rw [show tmplContent (repoAssets extra) "config.py" = configPyContent from rfl] at hx
      exact hx),
    (by
      rw [h1]
      have hx := scaffoldFS_nested (repoAssets extra) name out fs
          [(["app", "__init__.py"], ""),
          (["app", "main.py"], "main.py"),
          (["app", "core", "__init__.py"], ""),
          (["app", "core", "config.py"], "config.py")]
          [(["app", "routers", "__init__.py"], "routers_init.py"),
          (["app", "routers", "health.py"], "router_health.py"),
          (["app", "services", "__init__.py"], ""),
          (["app", "services", "health_service.py"], "service_health.py"),
          (["app", "schemas", "__init__.py"], ""),
          (["app", "schemas", "health.py"], "schemas_health.py"),
          (["tests", "__init__.py"], ""),
          (["tests", "conftest.py"], "conftest.py")]
          (["app", "core", "dependencies.py"], "dependencies.py") rfl (by decide) (by decide) (by decide) (by decide)
      rw [show tmplContent (repoAssets extra) "dependencies.py" = dependenciesPyContent from rfl] at hx
      exact hx),
    (by
      rw [h1]
      have hx := scaffoldFS_nested (repoAssets extra) name out fs
          [(["app", "__init__.py"], ""),
          (["app", "main.py"], "main.py"),
          (["app", "core", "__init__.py"], ""),
          (["app", "core", "config.py"], "config.py"),
          (["app", "core", "dependencies.py"], "dependencies.py")]
          [(["app", "routers", "health.py"], "router_health.py"),
          (["app", "services", "__init__.py"], ""),
          (["app", "services", "health_service.py"], "service_health.py"),
          (["app", "schemas", "__init__.py"], ""),
          (["app", "schemas", "health.py"], "schemas_health.py"),
          (["tests", "__init__.py"], ""),
          (["tests", "conftest.py"], "conftest.py")]
          (["app", "routers", "__init__.py"], "routers_init.py") rfl (by decide) (by decide) (by decide) (by decide)
      rw [show tmplContent (repoAssets extra) "routers_init.py" = routersInitPyContent from rfl] at hx
      exact hx),
    (by
      rw [h1]
      have hx := scaffoldFS_nested (repoAssets extra) name out fs
          [(["app", "__init__.py"], ""),
          (["app", "main.py"], "main.py"),
          (["app", "core", "__init__.py"], ""),
          (["app", "core", "config.py"], "config.py"),
          (["app", "core", "dependencies.py"], "dependencies.py"),
          (["app", "routers", "__init__.py"], "routers_init.py")]
          [(["app", "services", "__init__.py"], ""),
          (["app", "services", "health_service.py"], "service_health.py"),
          (["app", "schemas", "__init__.py"], ""),
          (["app", "schemas", "health.py"], "schemas_health.py"),
          (["tests", "__init__.py"], ""),
          (["tests", "conftest.py"], "conftest.py")]
          (["app", "routers", "health.py"], "router_health.py") rfl (by decide) (by decide) (by decide) (by decide)
      rw [show tmplContent (repoAssets extra) "router_health.py" = routerHealthPyContent from rfl] at hx
      exact hx),
    (by
      rw [h1]
      have hx := scaffoldFS_nested (repoAssets extra) name out fs
          [(["app", "__init__.py"], ""),
          (["app", "main.py"], "main.py"),
          (["app", "core", "__init__.py"], ""),
          (["app", "core", "config.py"], "config.py"),
          (["app", "core", "dependencies.py"], "dependencies.py"),
          (["app", "routers", "__init__.py"], "routers_init.py"),
          (["app", "routers", "health.py"], "router_health.py")]
          [(["app", "services", "health_service.py"], "service_health.py"),
          (["app", "schemas", "__init__.py"], ""),
          (["app", "schemas", "health.py"], "schemas_health.py"),
          (["tests", "__init__.py"], ""),
          (["tests", "conftest.py"], "conftest.py")]
          (["app", "services", "__init__.py"], "") rfl (by decide) (by decide) (by decide) (by decide)
      rw [show tmplContent (repoAssets extra) "" = "" from rfl] at hx
      exact hx),
    (by
      rw [h1]
      have hx := scaffoldFS_nested (repoAssets extra) name out fs
          [(["app", "__init__.py"], ""),
          (["app", "main.py"], "main.py"),
          (["app", "core", "__init__.py"], ""),
          (["app", "core", "config.py"], "config.py"),
          (["app", "core", "dependencies.py"], "dependencies.py"),
          (["app", "routers", "__init__.py"], "routers_init.py"),
          (["app", "routers", "health.py"], "router_health.py"),
          (["app", "services", "__init__.py"], "")]
          [(["app", "schemas", "__init__.py"], ""),
          (["app", "schemas", "health.py"], "schemas_health.py"),
          (["tests", "__init__.py"], ""),
          (["tests", "conftest.py"], "conftest.py")]
          (["app", "services", "health_service.py"], "service_health.py") rfl (by decide) (by decide) (by decide) (by decide)
      rw [show tmplContent (repoAssets extra) "service_health.py" = serviceHealthPyContent from rfl] at hx
      exact hx),
    (by
      rw [h1]
      have hx := scaffoldFS_nested (repoAssets extra) name out fs
          [(["app", "__init__.py"], ""),
          (["app", "main.py"], "main.py"),
          (["app", "core", "__init__.py"], ""),
          (["app", "core", "config.py"], "config.py"),
          (["app", "core", "dependencies.py"], "dependencies.py"),
          (["app", "routers", "__init__.py"], "routers_init.py"),
          (["app", "routers", "health.py"], "router_health.py"),
          (["app", "services", "__init__.py"], ""),
          (["app", "services", "health_service.py"], "service_health.py")]
          [(["app", "schemas", "health.py"], "schemas_health.py"),
          (["tests", "__init__.py"], ""),
          (["tests", "conftest.py"], "conftest.py")]
          (["app", "schemas", "__init__.py"], "") rfl (by decide) (by decide) (by decide) (by decide)
      rw [show tmplContent (repoAssets extra) "" = "" from rfl] at hx
      exact hx),
    (by
      rw [h1]
      have hx := scaffoldFS_nested (repoAssets extra) name out fs
          [(["app", "__init__.py"], ""),
          (["app", "main.py"], "main.py"),
          (["app", "core", "__init__.py"], ""),
          (["app", "core", "config.py"], "config.py"),
          (["app", "core", "dependencies.py"], "dependencies.py"),
          (["app", "routers", "__init__.py"], "routers_init.py"),
          (["app", "routers", "health.py"], "router_health.py"),
          (["app", "services", "__init__.py"], ""),
          (["app", "services", "health_service.py"], "service_health.py"),
          (["app", "schemas", "__init__.py"], "")]
          [(["tests", "__init__.py"], ""),
          (["tests", "conftest.py"], "conftest.py")]
          (["app", "schemas", "health.py"], "schemas_health.py") rfl (by decide) (by decide) (by decide) (by decide)
      rw [show tmplContent (repoAssets extra) "schemas_health.py" = schemasHealthPyContent from rfl] at hx
      exact hx),
    (by
      rw [h1]
      have hx := scaffoldFS_nested (repoAssets extra) name out fs
          [(["app", "__init__.py"], ""),
          (["app", "main.py"], "main.py"),
          (["app", "core", "__init__.py"], ""),
          (["app", "core", "config.py"], "config.py"),
          (["app", "core", "dependencies.py"], "dependencies.py"),
          (["app", "routers", "__init__.py"], "routers_init.py"),
          (["app", "routers", "health.py"], "router_health.py"),
          (["app", "services", "__init__.py"], ""),
          (["app", "services", "health_service.py"], "service_health.py"),
          (["app", "schemas", "__init__.py"], ""),
          (["app", "schemas", "health.py"], "schemas_health.py")]
          [(["tests", "conftest.py"], "conftest.py")]
          (["tests", "__init__.py"], "") rfl (by decide) (by decide) (by decide) (by decide)
      rw [show tmplContent (repoAssets extra) "" = "" from rfl] at hx
      exact hx),
    (by
      rw [h1]
      exact scaffoldFS_nested (repoAssets extra) name out fs
          [(["app", "__init__.py"], ""),
          (["app", "main.py"], "main.py"),
          (["app", "core", "__init__.py"], ""),
          (["app", "core", "config.py"], "config.py"),
          (["app", "core", "dependencies.py"], "dependencies.py"),
          (["app", "routers", "__init__.py"], "routers_init.py"),
          (["app", "routers", "health.py"], "router_health.py"),
          (["app", "services", "__init__.py"], ""),
          (["app", "services", "health_service.py"], "service_health.py"),
          (["app", "schemas", "__init__.py"], ""),
          (["app", "schemas", "health.py"], "schemas_health.py"),
          (["tests", "__init__.py"], "")]
          []
          (["tests", "conftest.py"], "conftest.py") rfl (by decide) (by decide) (by decide) (by decide)),
    (by
      rw [h1]
      exact scaffoldFS_env (repoAssets extra) name out fs),
    (by
      rw [h1]
      exact scaffoldFS_readme (repoAssets extra) name out fs),
    (by
      refine ⟨?_, ?_, ?_, ?_, ?_, ?_, ?_⟩ <;> decide)⟩

/-- C3, counterexample: in the concrete demo scenario the run succeeds,
but `app/routers/__init__.py` is not empty — it carries the content of
the `routers_init.py` asset — contrary to the layout line
`app/routers/__init__ (empty)`. -/
theorem C3_counterexample :
    demoRun.2 = Outcome.code 0 ∧
    demoRun.1 ["tmp", "out", "demo", "app", "routers", "__init__.py"]
      = some (Entry.file routersInitPyContent) ∧
    routersInitPyContent ≠ "" ∧
    demoRun.1 ["tmp", "out", "demo", "app", "__init__.py"] = some (Entry.file "") :=
  ⟨by decide, by decide, by decide, by decide⟩

/-- Witness for `C3_layout` at the concrete demo scenario. -/
theorem C3_layout_witness :
    (create_project (repoAssets noAssets) noFail "demo" ["tmp", "out"] tmpOutFS).2 = Outcome.code 0 ∧
    (create_project (repoAssets noAssets) noFail "demo" ["tmp", "out"] tmpOutFS).1 (pathJoin ["tmp", "out"] "demo") = some Entry.dir ∧
    (create_project (repoAssets noAssets) noFail "demo" ["tmp", "out"] tmpOutFS).1 (pathJoin ["tmp", "out"] "demo" ++ ["app", "__init__.py"]) = some (Entry.file "") ∧
    (create_project (repoAssets noAssets) noFail "demo" ["tmp", "out"] tmpOutFS).1 (pathJoin ["tmp", "out"] "demo" ++ ["app", "main.py"]) = some (Entry.file mainPyContent) ∧
    (create_project (repoAssets noAssets) noFail "demo" ["tmp", "out"] tmpOutFS).1 (pathJoin ["tmp", "out"] "demo" ++ ["app", "core", "__init__.py"]) = some (Entry.file "") ∧
    (create_project (repoAssets noAssets) noFail "demo" ["tmp", "out"] tmpOutFS).1 (pathJoin ["tmp", "out"] "demo" ++ ["app", "core", "config.py"]) = some (Entry.file configPyContent) ∧
    (create_project (repoAssets noAssets) noFail "demo" ["tmp", "out"] tmpOutFS).1 (pathJoin ["tmp", "out"] "demo" ++ ["app", "core", "dependencies.py"]) = some (Entry.file dependenciesPyContent) ∧
    (create_project (repoAssets noAssets) noFail "demo" ["tmp", "out"] tmpOutFS).1 (pathJoin ["tmp", "out"] "demo" ++ ["app", "routers", "__init__.py"]) = some (Entry.file routersInitPyContent) ∧
    (create_project (repoAssets noAssets) noFail "demo" ["tmp", "out"] tmpOutFS).1 (pathJoin ["tmp", "out"] "demo" ++ ["app", "routers", "health.py"]) = some (Entry.file routerHealthPyContent) ∧
    (create_project (repoAssets noAssets) noFail "demo" ["tmp", "out"] tmpOutFS).1 (pathJoin ["tmp", "out"] "demo" ++ ["app", "services", "__init__.py"]) = some (Entry.file "") ∧
    (create_project (repoAssets noAssets) noFail "demo" ["tmp", "out"] tmpOutFS).1 (pathJoin ["tmp", "out"] "demo" ++ ["app", "services", "health_service.py"]) = some (Entry.file serviceHealthPyContent) ∧
    (create_project (repoAssets noAssets) noFail "demo" ["tmp", "out"] tmpOutFS).1 (pathJoin ["tmp", "out"] "demo" ++ ["app", "schemas", "__init__.py"]) = some (Entry.file "") ∧
    (create_project (repoAssets noAssets) noFail "demo" ["tmp", "out"] tmpOutFS).1 (pathJoin ["tmp", "out"] "demo" ++ ["app", "schemas", "health.py"]) = some (Entry.file schemasHealthPyContent) ∧
    (create_project (repoAssets noAssets) noFail "demo" ["tmp", "out"] tmpOutFS).1 (pathJoin ["tmp", "out"] "demo" ++ ["tests", "__init__.py"]) = some (Entry.file "") ∧
    (create_project (repoAssets noAssets) noFail "demo" ["tmp", "out"] tmpOutFS).1 (pathJoin ["tmp", "out"] "demo" ++ ["tests", "conftest.py"]) = some (Entry.file (tmplContent (repoAssets noAssets) "conftest.py")) ∧
    (create_project (repoAssets noAssets) noFail "demo" ["tmp", "out"] tmpOutFS).1 (pathJoin ["tmp", "out"] "demo" ++ [".env.example"]) = some (Entry.file envExampleContent) ∧
    (create_project (repoAssets noAssets) noFail "demo" ["tmp", "out"] tmpOutFS).1 (pathJoin ["tmp", "out"] "demo" ++ ["README.md"]) = some (Entry.file (readmeContent "demo")) ∧
    mainPyContent ≠ "" ∧ configPyContent ≠ "" ∧ dependenciesPyContent ≠ "" ∧ routersInitPyContent ≠ "" ∧ routerHealthPyContent ≠ "" ∧ serviceHealthPyContent ≠ "" ∧ schemasHealthPyContent ≠ "" :=
  C3_layout noAssets "demo" ["tmp", "out"] tmpOutFS (by decide) (by decide)

/-- C5: for every entry of the nested-file manifest with a non-empty
template key, a failure-free `create` on a fresh destination still
succeeds, and the file at the entry's target is zero-length when the key
has no corresponding asset (lenient degradation), and carries the asset's
content verbatim when the asset is present. -/
theorem C5_lenient_nested (assets : String → Option String) (name : String)
    (out : List String) (fs : FS) (entry : List String × String)
    (hmem : entry ∈ TEMPLATES) (hkey : entry.2 ≠ "")
    (h0 : fs (pathJoin out name) = none)
    (hfr : freshUnder fs (pathJoin out name) = true) :
    (create_project assets noFail name out fs).2 = Outcome.code 0 ∧
    (assets entry.2 = none →
      (create_project assets noFail name out fs).1 (pathJoin out name ++ entry.1)
        = some (Entry.file "")) ∧
    (∀ c : String, assets entry.2 = some c →
      (create_project assets noFail name out fs).1 (pathJoin out name ++ entry.1)
        = some (Entry.file c)) := by
  have hrw := create_noFail assets name out fs h0 hfr
  have hcode : (create_project assets noFail name out fs).2 = Outcome.code 0 := by
    rw [hrw]
  have h1 : (create_project assets noFail name out fs).1 = scaffoldFS assets name out fs := by
    rw [hrw]
  have hhit : scaffoldFS assets name out fs (pathJoin out name ++ entry.1)
      = some (Entry.file (tmplContent assets entry.2)) := by
    fin_cases hmem
    · exact absurd rfl hkey
    · exact scaffoldFS_nested assets name out fs
            [(["app", "__init__.py"], "")]
            [(["app", "core", "__init__.py"], ""),
            (["app", "core", "config.py"], "config.py"),
            (["app", "core", "dependencies.py"], "dependencies.py"),
            (["app", "routers", "__init__.py"], "routers_init.py"),
            (["app", "routers", "health.py"], "router_health.py"),
            (["app", "services", "__init__.py"], ""),
            (["app", "services", "health_service.py"], "service_health.py"),
            (["app", "schemas", "__init__.py"], ""),
            (["app", "schemas", "health.py"], "schemas_health.py"),
            (["tests", "__init__.py"], ""),
            (["tests", "conftest.py"], "conftest.py")]
            (["app", "main.py"], "main.py") rfl (by decide) (by decide) (by decide) (by decide)
    · exact absurd rfl hkey
    · exact scaffoldFS_nested assets name out fs
            [(["app", "__init__.py"], ""),
            (["app", "main.py"], "main.py"),
            (["app", "core", "__init__.py"], "")]
            [(["app", "core", "dependencies.py"], "dependencies.py"),
            (["app", "routers", "__init__.py"], "routers_init.py"),
            (["app", "routers", "health.py"], "router_health.py"),
            (["app", "services", "__init__.py"], ""),
            (["app", "services", "health_service.py"], "service_health.py"),
            (["app", "schemas", "__init__.py"], ""),
            (["app", "schemas", "health.py"], "schemas_health.py"),
            (["tests", "__init__.py"], ""),
            (["tests", "conftest.py"], "conftest.py")]
            (["app", "core", "config.py"], "config.py") rfl (by decide) (by decide) (by decide) (by decide)
    · exact scaffoldFS_nested assets name out fs
            [(["app", "__init__.py"], ""),
            (["app", "main.py"], "main.py"),
            (["app", "core", "__init__.py"], ""),
            (["app", "core", "config.py"], "config.py")]
            [(["app", "routers", "__init__.py"], "routers_init.py"),
            (["app", "routers", "health.py"], "router_health.py"),
            (["app", "services", "__init__.py"], ""),
            (["app", "services", "health_service.py"], "service_health.py"),
            (["app", "schemas", "__init__.py"], ""),
            (["app", "schemas", "health.py"], "schemas_health.py"),
            (["tests", "__init__.py"], ""),
            (["tests", "conftest.py"], "conftest.py")]
            (["app", "core", "dependencies.py"], "dependencies.py") rfl (by decide) (by decide) (by decide) (by decide)
    · exact scaffoldFS_nested assets name out fs
            [(["app", "__init__.py"], ""),
            (["app", "main.py"], "main.py"),
            (["app", "core", "__init__.py"], ""),
            (["app", "core", "config.py"], "config.py"),
            (["app", "core", "dependencies.py"], "dependencies.py")]
            [(["app", "routers", "health.py"], "router_health.py"),
            (["app", "services", "__init__.py"], ""),
            (["app", "services", "health_service.py"], "service_health.py"),
            (["app", "schemas", "__init__.py"], ""),
            (["app", "schemas", "health.py"], "schemas_health.py"),
            (["tests", "__init__.py"], ""),
            (["tests", "conftest.py"], "conftest.py")]
            (["app", "routers", "__init__.py"], "routers_init.py") rfl (by decide) (by decide) (by decide) (by decide)
    · exact scaffoldFS_nested assets name out fs
            [(["app", "__init__.py"], ""),
            (["app", "main.py"], "main.py"),
            (["app", "core", "__init__.py"], ""),
            (["app", "core", "config.py"], "config.py"),
            (["app", "core", "dependencies.py"], "dependencies.py"),
            (["app", "routers", "__init__.py"], "routers_init.py")]
            [(["app", "services", "__init__.py"], ""),
            (["app", "services", "health_service.py"], "service_health.py"),
            (["app", "schemas", "__init__.py"], ""),
            (["app", "schemas", "health.py"], "schemas_health.py"),
            (["tests", "__init__.py"], ""),
            (["tests", "conftest.py"], "conftest.py")]
            (["app", "routers", "health.py"], "router_health.py") rfl (by decide) (by decide) (by decide) (by decide)
    · exact absurd rfl hkey
    · exact scaffoldFS_nested assets name out fs
            [(["app", "__init__.py"], ""),
            (["app", "main.py"], "main.py"),
            (["app", "core", "__init__.py"], ""),
            (["app", "core", "config.py"], "config.py"),
            (["app", "core", "dependencies.py"], "dependencies.py"),
            (["app", "routers", "__init__.py"], "routers_init.py"),
            (["app", "routers", "health.py"], "router_health.py"),
            (["app", "services", "__init__.py"], "")]
            [(["app", "schemas", "__init__.py"], ""),
            (["app", "schemas", "health.py"], "schemas_health.py"),
            (["tests", "__init__.py"], ""),
            (["tests", "conftest.py"], "conftest.py")]
            (["app", "services", "health_service.py"], "service_health.py") rfl (by decide) (by decide) (by decide) (by decide)
    · exact absurd rfl hkey
    · exact scaffoldFS_nested assets name out fs
            [(["app", "__init__.py"], ""),
            (["app", "main.py"], "main.py"),
            (["app", "core", "__init__.py"], ""),
            (["app", "core", "config.py"], "config.py"),
            (["app", "core", "dependencies.py"], "dependencies.py"),
            (["app", "routers", "__init__.py"], "routers_init.py"),
            (["app", "routers", "health.py"], "router_health.py"),
            (["app", "services", "__init__.py"], ""),
            (["app", "services", "health_service.py"], "service_health.py"),
            (["app", "schemas", "__init__.py"], "")]
            [(["tests", "__init__.py"], ""),
            (["tests", "conftest.py"], "conftest.py")]
            (["app", "schemas", "health.py"], "schemas_health.py") rfl (by decide) (by decide) (by decide) (by decide)
    · exact absurd rfl hkey
    · exact scaffoldFS_nested assets name out fs
            [(["app", "__init__.py"], ""),
            (["app", "main.py"], "main.py"),
            (["app", "core", "__init__.py"], ""),
            (["app", "core", "config.py"], "config.py"),
            (["app", "core", "dependencies.py"], "dependencies.py"),
            (["app", "routers", "__init__.py"], "routers_init.py"),
            (["app", "routers", "health.py"], "router_health.py"),
            (["app", "services", "__init__.py"], ""),
            (["app", "services", "health_service.py"], "service_health.py"),
            (["app", "schemas", "__init__.py"], ""),
            (["app", "schemas", "health.py"], "schemas_health.py"),
            (["tests", "__init__.py"], "")]
            []
            (["tests", "conftest.py"], "conftest.py") rfl (by decide) (by decide) (by decide) (by decide)
  refine ⟨hcode, ?_, ?_⟩
  · intro hnone
    rw [h1, hhit, show tmplContent assets entry.2 = "" from by
      simp [tmplContent, hkey, hnone]]
  · intro c hc
    rw [h1, hhit, show tmplContent assets entry.2 = c from by
      simp [tmplContent, hkey, hc]]

/-- Witness for `C5_lenient_nested` at the `tests/conftest.py` entry of
the demo scenario, whose asset is absent from the repository store. -/
theorem C5_lenient_nested_witness :
    ((create_project demoAssets noFail "demo" ["tmp", "out"] tmpOutFS).2 = Outcome.code 0 ∧
    (demoAssets "conftest.py" = none →
      (create_project demoAssets noFail "demo" ["tmp", "out"] tmpOutFS).1
          (pathJoin ["tmp", "out"] "demo" ++ ["tests", "conftest.py"])
        = some (Entry.file "")) ∧
    (∀ c : String, demoAssets "conftest.py" = some c →
      (create_project demoAssets noFail "demo" ["tmp", "out"] tmpOutFS).1
          (pathJoin ["tmp", "out"] "demo" ++ ["tests", "conftest.py"])
        = some (Entry.file c))) ∧
    demoAssets "conftest.py" = none :=
  ⟨C5_lenient_nested demoAssets "demo" ["tmp", "out"] tmpOutFS
      (["tests", "conftest.py"], "conftest.py") (by decide) (by decide) (by decide) (by decide),
    by decide⟩

theorem freshUnder_root_name {fs : FS} {pd : List String} (h : freshUnder fs pd = true) :
    ∀ k ∈ ROOT_FILES.map Prod.fst, fs (pd ++ [k]) = none := by
  intro k hk
  obtain ⟨e, he, rfl⟩ := List.mem_map.mp hk
  exact freshUnder_root h e he

/-- C6: for every entry of the root-file manifest whose template key has
no corresponding asset in the store, a failure-free `create` on a fresh
destination still succeeds and creates no file at that entry's target
(the entry is silently skipped). -/
theorem C6_root_missing_skipped (assets : String → Option String) (name : String)
    (out : List String) (fs : FS) (entry : String × String)
    (hmem : entry ∈ ROOT_FILES) (hmiss : assets entry.2 = none)
    (h0 : fs (pathJoin out name) = none)
    (hfr : freshUnder fs (pathJoin out name) = true) :
    (create_project assets noFail name out fs).2 = Outcome.code 0 ∧
    (create_project assets noFail name out fs).1 (pathJoin out name ++ [entry.1]) = none := by
  have hrw := create_noFail assets name out fs h0 hfr
  have h1 : (create_project assets noFail name out fs).1 = scaffoldFS assets name out fs := by
    rw [hrw]
  refine ⟨by rw [hrw], ?_⟩
  rw [h1]
  fin_cases hmem <;>
  · rw [scaffoldFS_skip assets name out fs _ (by decide) (by decide)
      (by
        intro e2 he2
        fin_cases he2 <;> first | exact Or.inr hmiss | exact Or.inl (by decide))
      (by decide) (by decide)]
    exact freshUnder_root_name hfr _ (by decide)

/-- Witness for `C6_root_missing_skipped` at the `Dockerfile` entry of
the demo scenario, whose asset is absent from the repository store. -/
theorem C6_root_missing_skipped_witness :
    ((create_project demoAssets noFail "demo" ["tmp", "out"] tmpOutFS).2 = Outcome.code 0 ∧
    (create_project demoAssets noFail "demo" ["tmp", "out"] tmpOutFS).1
        (pathJoin ["tmp", "out"] "demo" ++ ["Dockerfile"]) = none) ∧
    demoAssets "Dockerfile" = none :=
  ⟨C6_root_missing_skipped demoAssets "demo" ["tmp", "out"] tmpOutFS
      ("Dockerfile", "Dockerfile") (by decide) (by decide) (by decide) (by decide),
    by decide⟩

/-! ## Locality: no write escapes the project directory -/

theorem strictUnder_append {pd x : List String} (hx : x ≠ []) :
    strictUnder pd (pd ++ x) = true := by
  unfold strictUnder
  rw [isInitSeg_of_append]
  simp [Ne.symm (self_ne_append hx)]

theorem isInitSeg_append_split {q pd x : List String} (h : isInitSeg q (pd ++ x) = true) :
    isInitSeg q pd = true ∨ ∃ y, y ≠ [] ∧ q = pd ++ y ∧ isInitSeg y x = true := by
  induction pd generalizing q with
  | nil =>
    cases q with
    | nil => exact Or.inl rfl
    | cons a as => exact Or.inr ⟨a :: as, by simp, rfl, h⟩
  | cons p ps ih =>
    cases q with
    | nil => exact Or.inl rfl
    | cons a as =>
      rw [List.cons_append] at h
      simp only [isInitSeg, Bool.and_eq_true] at h
      obtain ⟨hap, h2⟩ := h
      rcases ih h2 with h3 | ⟨y, hy, rfl, h4⟩
      · exact Or.inl (by simp [isInitSeg, hap, h3])
      · exact Or.inr ⟨y, hy, by rw [eq_of_beq hap, List.cons_append], h4⟩

theorem fsWrite_zone {pd x q : List String} {fs : FS} {e : Entry} (hx : x ≠ [])
    (h1 : strictUnder pd q = false) :
    fsWrite fs (pd ++ x) e q = fs q := by
  apply fsWrite_ne
  intro hc
  rw [hc, strictUnder_append hx] at h1
  simp at h1

theorem mkdirAll_zone {pd x q : List String} {fs : FS}
    (h1 : strictUnder pd q = false) (h2 : isInitSeg q pd = false) :
    mkdirAll fs (pd ++ x) q = fs q := by
  apply mkdirAll_skip
  cases hseg : isInitSeg q (pd ++ x) with
  | false => rfl
  | true =>
    rcases isInitSeg_append_split hseg with h3 | ⟨y, hy, rfl, _h4⟩
    · rw [h3] at h2
      exact absurd h2 (by decide)
    · rw [strictUnder_append hy] at h1
      exact absurd h1 (by decide)

theorem anc_ne_append {pd q x : List String} (hx : x ≠ []) (h : isInitSeg q pd = true) :
    q ≠ pd ++ x := by
  intro hc
  subst hc
  rw [isInitSeg_append_nonempty hx] at h
  exact absurd h (by decide)

theorem mkdirAll_anc {fs : FS} {d q : List String} :
    mkdirAll fs d q = fs q ∨ mkdirAll fs d q = some Entry.dir := by
  unfold mkdirAll
  split
  · exact Or.inr rfl
  · exact Or.inl rfl

theorem stepTemplate_zone {assets : String → Option String} {failAt : List String → Bool}
    {pd q : List String} {e : List String × String} {fs : FS} (hE : e.1 ≠ [])
    (h1 : strictUnder pd q = false) (h2 : isInitSeg q pd = false) :
    ((stepTemplate assets failAt pd e fs).1) q = fs q := by
  simp only [stepTemplate]
  rcases hmk : mkdirOp failAt (List.dropLast (pd ++ e.1)) fs with ⟨fs2, res⟩
  have hfs2 : fs2 q = fs q := by
    have hx : ((mkdirOp failAt (List.dropLast (pd ++ e.1)) fs).1) q = fs q := by
      rw [List.dropLast_append_of_ne_nil pd hE]
      unfold mkdirOp
      split
      · rfl
      · exact mkdirAll_zone h1 h2
    rw [hmk] at hx
    exact hx
  cases res with
  | some err => exact hfs2
  | none =>
    simp only []
    have hw : ∀ c : String, ((copyOp failAt (pd ++ e.1) c fs2).1) q = fs q := by
      intro c
      unfold copyOp
      split
      · exact hfs2
      · exact (fsWrite_zone hE h1).trans hfs2
    have htc : ((touchOp failAt (pd ++ e.1) fs2).1) q = fs q := by
      unfold touchOp
      split
      · exact hfs2
      · split
        · exact hfs2
        · exact (fsWrite_zone hE h1).trans hfs2
    split
    · split
      · exact hw _
      · exact htc
    · exact htc

theorem stepRoot_zone {assets : String → Option String} {failAt : List String → Bool}
    {pd q : List String} {e : String × String} {fs : FS}
    (h1 : strictUnder pd q = false) :
    ((stepRoot assets failAt pd e fs).1) q = fs q := by
  simp only [stepRoot]
  split
  · unfold copyOp
    split
    · rfl
    · exact fsWrite_zone (by simp) h1
  · rfl

theorem runSteps_zone (steps : List (FS → FS × Option (List String))) (fs : FS)
    (q : List String) (hsteps : ∀ s ∈ steps, ∀ f : FS, ((s f).1) q = f q) :
    ((runSteps steps fs).1) q = fs q := by
  induction steps generalizing fs with
  | nil => rfl
  | cons s rest ih =>
    unfold runSteps
    rcases hs : s fs with ⟨fs2, res⟩
    have h2 : fs2 q = fs q := by
      have hx := hsteps s (by simp) fs
      rw [hs] at hx
      exact hx
    cases res with
    | none => rw [ih fs2 (fun s2 hs2 f => hsteps s2 (by simp [hs2]) f), h2]
    | some err => exact h2

theorem stepTemplate_anc {assets : String → Option String} {failAt : List String → Bool}
    {pd q : List String} {e : List String × String} {fs : FS} (hE : e.1 ≠ [])
    (hq : isInitSeg q pd = true) :
    ((stepTemplate assets failAt pd e fs).1) q = fs q ∨
      ((stepTemplate assets failAt pd e fs).1) q = some Entry.dir := by
  simp only [stepTemplate]
  rcases hmk : mkdirOp failAt (List.dropLast (pd ++ e.1)) fs with ⟨fs2, res⟩
  have hfs2 : fs2 q = fs q ∨ fs2 q = some Entry.dir := by
    have hx : ((mkdirOp failAt (List.dropLast (pd ++ e.1)) fs).1) q = fs q ∨
        ((mkdirOp failAt (List.dropLast (pd ++ e.1)) fs).1) q = some Entry.dir := by
      unfold mkdirOp
      split
      · exact Or.inl rfl
      · exact mkdirAll_anc
    rw [hmk] at hx
    exact hx
  have hne : q ≠ pd ++ e.1 := anc_ne_append hE hq
  cases res with
  | some err => exact hfs2
  | none =>
    simp only []
    have hw : ∀ c : String, ((copyOp failAt (pd ++ e.1) c fs2).1) q = fs2 q := by
      intro c
      unfold copyOp
      split
      · rfl
      · exact fsWrite_ne _ _ hne
    have htc : ((touchOp failAt (pd ++ e.1) fs2).1) q = fs2 q := by
      unfold touchOp
      split
      · rfl
      · split
        · rfl
        · exact fsWrite_ne _ _ hne
    split
    · split
      · rw [hw _]
        exact hfs2
      · rw [htc]
        exact hfs2
    · rw [htc]
      exact hfs2

theorem stepRoot_anc {assets : String → Option String} {failAt : List String → Bool}
    {pd q : List String} {e : String × String} {fs : FS}
    (hq : isInitSeg q pd = true) :
    ((stepRoot assets failAt pd e fs).1) q = fs q := by
  simp only [stepRoot]
  split
  · unfold copyOp
    split
    · rfl
    · exact fsWrite_ne _ _ (anc_ne_append (by simp) hq)
  · rfl

theorem runSteps_anc (steps : List (FS → FS × Option (List String))) (fs : FS)
    (q : List String)
    (hsteps : ∀ s ∈ steps, ∀ f : FS, ((s f).1) q = f q ∨ ((s f).1) q = some Entry.dir) :
    ((runSteps steps fs).1) q = fs q ∨ ((runSteps steps fs).1) q = some Entry.dir := by
  induction steps generalizing fs with
  | nil => exact Or.inl rfl
  | cons s rest ih =>
    unfold runSteps
    rcases hs : s fs with ⟨fs2, res⟩
    have h2 : fs2 q = fs q ∨ fs2 q = some Entry.dir := by
      have hx := hsteps s (by simp) fs
      rw [hs] at hx
      exact hx
    cases res with
    | none =>
      rcases ih fs2 (fun s2 hs2 f => hsteps s2 (by simp [hs2]) f) with h3 | h3
      · rw [h3]
        exact h2
      · exact Or.inr h3
    | some err => exact h2

theorem create_zone {assets : String → Option String} {failAt : List String → Bool}
    {name : String} {out : List String} {fs : FS} {q : List String}
    (hz1 : strictUnder (pathJoin out name) q = false)
    (hz2 : isInitSeg q (pathJoin out name) = false) :
    (create_project assets failAt name out fs).1 q = fs q := by
  simp only [create_project, create_project_with]
  by_cases hex : (fs (pathJoin out name)).isSome = true
  · rw [if_pos hex]
  · rw [if_neg hex]
    rcases hmk : mkdirOp failAt (pathJoin out name) fs with ⟨fs1, res1⟩
    have hp1 : fs1 q = fs q := by
      have hx : ((mkdirOp failAt (pathJoin out name) fs).1) q = fs q := by
        unfold mkdirOp
        split
        · rfl
        · exact mkdirAll_skip hz2
      rw [hmk] at hx
      exact hx
    cases res1 with
    | some err => simpa [opThen] using hp1
    | none =>
      simp only [opThen]
      rcases hts : runSteps
          (TEMPLATES.map (stepTemplate assets failAt (pathJoin out name))) fs1 with ⟨fs2, res2⟩
      have hp2 : fs2 q = fs q := by
        have hx := runSteps_zone
          (TEMPLATES.map (stepTemplate assets failAt (pathJoin out name))) fs1 q
          (fun s hs f => by
            obtain ⟨e, he, rfl⟩ := List.mem_map.mp hs
            exact stepTemplate_zone (TEMPLATES_targets_nonempty e he) hz1 hz2)
        rw [hts] at hx
        exact hx.trans hp1
      cases res2 with
      | some err => simpa [opThen] using hp2
      | none =>
        simp only [opThen]
        rcases hrs : runSteps
            (ROOT_FILES.map (stepRoot assets failAt (pathJoin out name))) fs2 with ⟨fs3, res3⟩
        have hp3 : fs3 q = fs q := by
          have hx := runSteps_zone
            (ROOT_FILES.map (stepRoot assets failAt (pathJoin out name))) fs2 q
            (fun s hs f => by
              obtain ⟨e, he, rfl⟩ := List.mem_map.mp hs
              exact stepRoot_zone hz1)
          rw [hrs] at hx
          exact hx.trans hp2
        cases res3 with
        | some err => simpa [opThen] using hp3
        | none =>
          simp only [opThen]
          rcases henv : writeTextOp failAt (pathJoin out name ++ [".env.example"])
              envExampleContent fs3 with ⟨fs4, res4⟩
          have hp4 : fs4 q = fs q := by
            have hx : ((writeTextOp failAt (pathJoin out name ++ [".env.example"])
                envExampleContent fs3).1) q = fs3 q := by
              unfold writeTextOp
              split
              · rfl
              · exact fsWrite_zone (by simp) hz1
            rw [henv] at hx
            exact hx.trans hp3
          cases res4 with
          | some err => simpa [opThen] using hp4
          | none =>
            simp only [opThen]
            rcases hrm : writeTextOp failAt (pathJoin out name ++ ["README.md"])
                (readmeContent name) fs4 with ⟨fs5, res5⟩
            have hp5 : fs5 q = fs q := by
              have hx : ((writeTextOp failAt (pathJoin out name ++ ["README.md"])
                  (readmeContent name) fs4).1) q = fs4 q := by
                unfold writeTextOp
                split
                · rfl
                · exact fsWrite_zone (by simp) hz1
              rw [hrm] at hx
              exact hx.trans hp4
            cases res5 with
            | some err => simpa [opThen] using hp5
            | none => simpa [opThen] using hp5

theorem create_anc {assets : String → Option String} {failAt : List String → Bool}
    {name : String} {out : List String} {fs : FS} {q : List String}
    (hq : isInitSeg q (pathJoin out name) = true) :
    (create_project assets failAt name out fs).1 q = fs q ∨
      (create_project assets failAt name out fs).1 q = some Entry.dir := by
  simp only [create_project, create_project_with]
  by_cases hex : (fs (pathJoin out name)).isSome = true
  · rw [if_pos hex]
    exact Or.inl rfl
  · rw [if_neg hex]
    rcases hmk : mkdirOp failAt (pathJoin out name) fs with ⟨fs1, res1⟩
    have hp1 : fs1 q = fs q ∨ fs1 q = some Entry.dir := by
      have hx : ((mkdirOp failAt (pathJoin out name) fs).1) q = fs q ∨
          ((mkdirOp failAt (pathJoin out name) fs).1) q = some Entry.dir := by
        unfold mkdirOp
        split
        · exact Or.inl rfl
        · exact mkdirAll_anc
      rw [hmk] at hx
      exact hx
    cases res1 with
    | some err => simpa [opThen] using hp1
    | none =>
      simp only [opThen]
      rcases hts : runSteps
          (TEMPLATES.map (stepTemplate assets failAt (pathJoin out name))) fs1 with ⟨fs2, res2⟩
      have hp2 : fs2 q = fs q ∨ fs2 q = some Entry.dir := by
        have hx := runSteps_anc
          (TEMPLATES.map (stepTemplate assets failAt (pathJoin out name))) fs1 q
          (fun s hs f => by
            obtain ⟨e, he, rfl⟩ := List.mem_map.mp hs
            exact stepTemplate_anc (TEMPLATES_targets_nonempty e he) hq)
        rw [hts] at hx
        rcases hx with hx | hx
        · rcases hp1 with h1a | h1a
          · exact Or.inl (hx.trans h1a)
          · exact Or.inr (hx.trans h1a)
        · exact Or.inr hx
      cases res2 with
      | some err => simpa [opThen] using hp2
      | none =>
        simp only [opThen]
        rcases hrs : runSteps
            (ROOT_FILES.map (stepRoot assets failAt (pathJoin out name))) fs2 with ⟨fs3, res3⟩
        have hp3 : fs3 q = fs q ∨ fs3 q = some Entry.dir := by
          have hx := runSteps_anc
            (ROOT_FILES.map (stepRoot assets failAt (pathJoin out name))) fs2 q
            (fun s hs f => by
              obtain ⟨e, he, rfl⟩ := List.mem_map.mp hs
              exact Or.inl (stepRoot_anc hq))
          rw [hrs] at hx
          rcases hx with hx | hx
          · rcases hp2 with h2a | h2a
            · exact Or.inl (hx.trans h2a)
            · exact Or.inr (hx.trans h2a)
          · exact Or.inr hx
        cases res3 with
        | some err => simpa [opThen] using hp3
        | none =>
          simp only [opThen]
          rcases henv : writeTextOp failAt (pathJoin out name ++ [".env.example"])
              envExampleContent fs3 with ⟨fs4, res4⟩
          have hp4 : fs4 q = fs q ∨ fs4 q = some Entry.dir := by
            have hx : ((writeTextOp failAt (pathJoin out name ++ [".env.example"])
                envExampleContent fs3).1) q = fs3 q := by
              unfold writeTextOp
              split
              · rfl
              · exact fsWrite_ne _ _ (anc_ne_append (by simp) hq)
            rw [henv] at hx
            rcases hp3 with h3a | h3a
            · exact Or.inl (hx.trans h3a)
            · exact Or.inr (hx.trans h3a)
          cases res4 with
          | some err => simpa [opThen] using hp4
          | none =>
            simp only [opThen]
            rcases hrm : writeTextOp failAt (pathJoin out name ++ ["README.md"])
                (readmeContent name) fs4 with ⟨fs5, res5⟩
            have hp5 : fs5 q = fs q ∨ fs5 q = some Entry.dir := by
              have hx : ((writeTextOp failAt (pathJoin out name ++ ["README.md"])
                  (readmeContent name) fs4).1) q = fs4 q := by
                unfold writeTextOp
                split
                · rfl
                · exact fsWrite_ne _ _ (anc_ne_append (by simp) hq)
              rw [hrm] at hx
              rcases hp4 with h4a | h4a
              · exact Or.inl (hx.trans h4a)
              · exact Or.inr (hx.trans h4a)
            cases res5 with
            | some err => simpa [opThen] using hp5
            | none => simpa [opThen] using hp5

/-- C10, counterexample: the run `create("demo", "/tmp/out")` itself
creates the directory `/tmp/out/demo` (it did not exist before and exists
as a directory afterwards), and that directory does not lie strictly
under `/tmp/out/demo`; so not every directory the call creates lies
strictly under `output_dir/project_name`. -/
theorem C10_counterexample :
    tmpOutFS ["tmp", "out", "demo"] = none ∧
    demoRun.1 ["tmp", "out", "demo"] = some Entry.dir ∧
    strictUnder ["tmp", "out", "demo"] ["tmp", "out", "demo"] = false :=
  ⟨by decide, by decide, by decide⟩

/-- C10, amended: every path that `create_project` touches at all (its
entry changes) either lies strictly under `output_dir/project_name` —
this covers every file written — or is an ancestor-or-self of
`output_dir/project_name` that ends up as a directory (the project
directory itself and missing ancestors created by
`mkdir(parents=True)`).  In particular no write escapes the project
directory: paths outside the project directory and off its ancestor
chain are never touched, whatever the oracle, the asset store, or the
project name. -/
theorem C10_no_escape (assets : String → Option String) (failAt : List String → Bool)
    (name : String) (out : List String) (fs : FS) (q : List String)
    (hchanged : (create_project assets failAt name out fs).1 q ≠ fs q) :
    strictUnder (pathJoin out name) q = true ∨
    (isInitSeg q (pathJoin out name) = true ∧
      (create_project assets failAt name out fs).1 q = some Entry.dir) := by
  cases hs : strictUnder (pathJoin out name) q with
  | true => exact Or.inl rfl
  | false =>
    cases hi : isInitSeg q (pathJoin out name) with
    | false => exact absurd (create_zone hs hi) hchanged
    | true =>
      rcases @create_anc assets failAt name out fs q hi with hx | hx
      · exact absurd hx hchanged
      · exact Or.inr ⟨rfl, hx⟩

/-- Witness for `C10_no_escape`: the `app/main.py` write of the demo run
is strictly under the project directory. -/
theorem C10_no_escape_witness :
    strictUnder (pathJoin ["tmp", "out"] "demo") ["tmp", "out", "demo", "app", "main.py"] = true ∨
    (isInitSeg ["tmp", "out", "demo", "app", "main.py"] (pathJoin ["tmp", "out"] "demo") = true ∧
      (create_project demoAssets noFail "demo" ["tmp", "out"] tmpOutFS).1
        ["tmp", "out", "demo", "app", "main.py"] = some Entry.dir) :=
  C10_no_escape demoAssets noFail "demo" ["tmp", "out"] tmpOutFS
    ["tmp", "out", "demo", "app", "main.py"] (by decide)

/-- C7, counterexample: two successful runs (`demo` and `demo2`) return
the very same result (`return 0`, modelled `Outcome.code 0`) while
creating different sets of paths; the returned result of `create_project`
is only an integer status and cannot list the paths that were created. -/
theorem C7_counterexample :
    demoRun.2 = Outcome.code 0 ∧
    demo2Run.2 = Outcome.code 0 ∧
    demoRun.2 = demo2Run.2 ∧
    tmpOutFS ["tmp", "out", "demo", ".env.example"] = none ∧
    demoRun.1 ["tmp", "out", "demo", ".env.example"] = some (Entry.file envExampleContent) ∧
    demo2Run.1 ["tmp", "out", "demo", ".env.example"] = none :=
  ⟨by decide, by decide, by decide, by decide, by decide, by decide⟩

/-- C7, amended: `create_project` returns only an exit code (0 on
success, 1 on an existing destination) or propagates an uncaught
filesystem error naming just the failing path; it returns no list of
created paths.  When a write fails partway through — here the
`app/core/config.py` write of the demo run — the run aborts at that path
and the partial output written before the failure remains on the
filesystem (files written earlier persist, later targets are absent),
but it is not reported in any returned result. -/
theorem C7_exit_code_only (assets : String → Option String) (failAt : List String → Bool)
    (name : String) (out : List String) (fs : FS) :
    ((create_project assets failAt name out fs).2 = Outcome.code 0 ∨
     (create_project assets failAt name out fs).2 = Outcome.code 1 ∨
     ∃ p, (create_project assets failAt name out fs).2 = Outcome.raised p) ∧
    (demoFailRun.2 = Outcome.raised ["tmp", "out", "demo", "app", "core", "config.py"] ∧
     demoFailRun.1 ["tmp", "out", "demo", "app", "__init__.py"] = some (Entry.file "") ∧
     demoFailRun.1 ["tmp", "out", "demo", "app", "main.py"] = some (Entry.file mainPyContent) ∧
     demoFailRun.1 ["tmp", "out", "demo", ".env.example"] = none ∧
     demoFailRun.1 ["tmp", "out", "demo", "README.md"] = none) := by
  constructor
  · rcases create_struct assets failAt name out fs with ⟨err, hr⟩ | hr | ⟨h0, fs3, h3, hr⟩
    · exact Or.inr (Or.inr ⟨err, hr⟩)
    · exact Or.inr (Or.inl (by rw [hr]))
    · exact Or.inl (by rw [hr])
  · exact ⟨by decide, by decide, by decide, by decide, by decide⟩

theorem pathJoin_empty (out : List String) : pathJoin out "" = out := by
  show out ++ ((splitSlashAux ("" : String).data []).map String.mk).filter
      (fun s => decide (s ≠ "")) = out
  rw [show ((splitSlashAux ("" : String).data []).map String.mk).filter
      (fun s => decide (s ≠ "")) = [] from by decide]
  exact List.append_nil out

/-- C8, counterexample: with an empty project name and an absent output
directory, `create("", "/tmp/newdir")` does not fail at all: pathlib's
join with an empty name yields the output directory itself, which does
not exist, so the call scaffolds directly into `/tmp/newdir` and returns
exit code 0 — no `InvalidArgument` rejection exists in the code. -/
theorem C8_counterexample :
    pathJoin ["tmp", "newdir"] "" = ["tmp", "newdir"] ∧
    tmpOutFS ["tmp", "newdir"] = none ∧
    emptyNameRun.2 = Outcome.code 0 ∧
    emptyNameRun.1 ["tmp", "newdir", ".env.example"] = some (Entry.file envExampleContent) :=
  ⟨by decide, by decide, by decide, by decide⟩

/-- C8, amended: an empty project name is never validated.  Since
`output_dir / "" = output_dir`, the call behaves exactly like a call on
the output directory itself: if the output directory exists, it fails
with the AlreadyExists error (exit code 1) and touches nothing; if it
does not exist, the call succeeds and scaffolds the project into the
output directory. -/
theorem C8_empty_name (assets : String → Option String) (out : List String) (fs : FS) :
    pathJoin out "" = out ∧
    (∀ failAt : List String → Bool, (fs out).isSome = true →
      create_project assets failAt "" out fs = (fs, Outcome.code 1)) ∧
    (fs out = none → freshUnder fs out = true →
      (create_project assets noFail "" out fs).2 = Outcome.code 0) := by
  refine ⟨pathJoin_empty out, ?_, ?_⟩
  · intro failAt hex
    simp only [create_project, create_project_with]
    rw [pathJoin_empty out, if_pos hex]
  · intro h0 hfr
    have hrw := create_noFail assets "" out fs
      (by rw [pathJoin_empty out]; exact h0)
      (by rw [pathJoin_empty out]; exact hfr)
    rw [hrw]

/-- Witness for `C8_empty_name`: on an existing directory the empty-name
call is rejected; on an absent one it succeeds. -/
theorem C8_empty_name_witness :
    create_project demoAssets noFail "" ["tmp", "out"] tmpOutFS
      = (tmpOutFS, Outcome.code 1) ∧
    (create_project demoAssets noFail "" ["tmp", "newdir"] tmpOutFS).2 = Outcome.code 0 :=
  ⟨(C8_empty_name demoAssets ["tmp", "out"] tmpOutFS).2.1 noFail (by decide),
   (C8_empty_name demoAssets ["tmp", "newdir"] tmpOutFS).2.2 (by decide) (by decide)⟩

/-! ## Order insensitivity of the manifests -/

theorem mkdirAll_congr_at {fs fs2 : FS} {p q : List String} (h : fs q = fs2 q) :
    mkdirAll fs p q = mkdirAll fs2 p q := by
  unfold mkdirAll
  rw [h]

theorem mkdirAll_comm (z : FS) (p1 p2 q : List String) :
    mkdirAll (mkdirAll z p1) p2 q = mkdirAll (mkdirAll z p2) p1 q := by
  unfold mkdirAll
  cases h1 : isInitSeg q p1 <;> cases h2 : isInitSeg q p2 <;> cases hz : z q <;>
    simp [h1, h2, hz]

theorem fsWrite_comm {fs : FS} {p1 p2 : List String} {a b : Entry} (h : p1 ≠ p2) :
    fsWrite (fsWrite fs p1 a) p2 b = fsWrite (fsWrite fs p2 b) p1 a := by
  funext q
  unfold fsWrite
  by_cases h1 : q = p1
  · by_cases h2 : q = p2
    · exact absurd (h1.symm.trans h2) h
    · simp [h1, h2, h]
  · by_cases h2 : q = p2 <;> simp [h1, h2, h, Ne.symm h]

theorem tmplWrite_comm (assets : String → Option String) (pd : List String)
    {e1 e2 : List String × String} (h : e1.1 ≠ e2.1) (z : FS) :
    tmplWrite assets pd (tmplWrite assets pd z e1) e2
      = tmplWrite assets pd (tmplWrite assets pd z e2) e1 := by
  have ht : pd ++ e1.1 ≠ pd ++ e2.1 := append_ne_append h
  funext q
  unfold tmplWrite
  by_cases hq2 : q = pd ++ e2.1
  · subst hq2
    rw [fsWrite_self, fsWrite_ne _ _ (Ne.symm ht)]
    have hX : fsWrite (mkdirAll z (List.dropLast (pd ++ e2.1))) (pd ++ e2.1)
        (Entry.file (tmplContent assets e2.2)) (pd ++ e2.1)
        = some (Entry.file (tmplContent assets e2.2)) := fsWrite_self _ _ _
    rw [mkdirAll_isSome (by rw [hX]; rfl), hX]
  · by_cases hq1 : q = pd ++ e1.1
    · subst hq1
      rw [fsWrite_ne _ _ ht, fsWrite_self]
      have hX : fsWrite (mkdirAll z (List.dropLast (pd ++ e1.1))) (pd ++ e1.1)
          (Entry.file (tmplContent assets e1.2)) (pd ++ e1.1)
          = some (Entry.file (tmplContent assets e1.2)) := fsWrite_self _ _ _
      rw [mkdirAll_isSome (by rw [hX]; rfl), hX]
    · rw [fsWrite_ne _ _ hq2, fsWrite_ne _ _ hq1]
      rw [mkdirAll_congr_at (fsWrite_ne _ _ hq1), mkdirAll_congr_at (fsWrite_ne _ _ hq2)]
      exact mkdirAll_comm z _ _ q

theorem rootWrite_comm (assets : String → Option String) (pd : List String)
    {e1 e2 : String × String} (h : e1.1 ≠ e2.1) (z : FS) :
    rootWrite assets pd (rootWrite assets pd z e1) e2
      = rootWrite assets pd (rootWrite assets pd z e2) e1 := by
  have ht : pd ++ [e1.1] ≠ pd ++ [e2.1] := append_ne_append (by simp [h])
  unfold rootWrite
  cases assets e1.2 <;> cases assets e2.2 <;> try rfl
  exact fsWrite_comm ht

theorem ROOT_FILES_pairwise : ROOT_FILES.Pairwise (fun a b => a.1 ≠ b.1) := by decide

/-- C9: iterating the nested-file and the root-file manifest in any
permuted order produces exactly the same result as the script's order:
the same outcome and the same filesystem (same created paths with the
same contents).  Target paths within each manifest are unique, and no
target lies on another target's parent chain, so the per-entry writes
commute. -/
theorem C9_order_insensitive (t : List (List String × String)) (r : List (String × String))
    (assets : String → Option String) (name : String) (out : List String) (fs : FS)
    (hpt : t.Perm TEMPLATES) (hpr : r.Perm ROOT_FILES)
    (h0 : fs (pathJoin out name) = none)
    (hfr : freshUnder fs (pathJoin out name) = true) :
    create_project_with t r assets noFail name out fs
      = create_project assets noFail name out fs := by
  have hsymm : ∀ {x y : List String × String},
      entryOk x y = true → entryOk y x = true := by
    intro x y hxy
    obtain ⟨h1, h2, h3⟩ := entryOk_unpack hxy
    simp [entryOk, h2, h3, Ne.symm h1]
  have hne_t : ∀ e ∈ t, e.1 ≠ [] := fun e he =>
    TEMPLATES_targets_nonempty e (hpt.mem_iff.mp he)
  have hpair_t : t.Pairwise (fun a b => entryOk a b = true) :=
    (hpt.pairwise_iff hsymm).mpr TEMPLATES_pairwise
  have hfr_t : ∀ e ∈ t, fs (pathJoin out name ++ e.1) = none := fun e he =>
    freshUnder_tmpl hfr e (hpt.mem_iff.mp he)
  rw [create_with_noFail t r assets name out fs hne_t hpair_t h0 hfr_t,
    create_noFail assets name out fs h0 hfr]
  unfold scaffoldFS
  have htf : t.foldl (tmplWrite assets (pathJoin out name))
        (mkdirAll fs (pathJoin out name))
      = TEMPLATES.foldl (tmplWrite assets (pathJoin out name))
        (mkdirAll fs (pathJoin out name)) := by
    refine hpt.foldl_eq' ?_ _
    intro x hx y hy z
    by_cases hxy : x = y
    · rw [hxy]
    · have hfst : x.1 ≠ y.1 := by
        have hok := (List.Pairwise.forall (fun _ _ hab => hsymm hab) hpair_t) hx hy hxy
        exact (entryOk_unpack hok).1
      exact tmplWrite_comm assets (pathJoin out name) hfst z
  have hpair_r : r.Pairwise (fun a b => a.1 ≠ b.1) :=
    (hpr.pairwise_iff (fun hab => Ne.symm hab)).mpr ROOT_FILES_pairwise
  have hrf : ∀ base : FS, r.foldl (rootWrite assets (pathJoin out name)) base
      = ROOT_FILES.foldl (rootWrite assets (pathJoin out name)) base := by
    intro base
    refine hpr.foldl_eq' ?_ _
    intro x hx y hy z
    by_cases hxy : x = y
    · rw [hxy]
    · have hfst : x.1 ≠ y.1 :=
        (List.Pairwise.forall (fun _ _ hab => Ne.symm hab) hpair_r) hx hy hxy
      exact rootWrite_comm assets (pathJoin out name) hfst z
  rw [htf, hrf]

/-- Witness for `C9_order_insensitive`: running both manifests fully
reversed gives the same result as the script's order in the demo
scenario. -/
theorem C9_order_insensitive_witness :
    create_project_with TEMPLATES.reverse ROOT_FILES.reverse demoAssets noFail "demo"
      ["tmp", "out"] tmpOutFS
      = create_project demoAssets noFail "demo" ["tmp", "out"] tmpOutFS :=
  C9_order_insensitive TEMPLATES.reverse ROOT_FILES.reverse demoAssets "demo" ["tmp", "out"]
    tmpOutFS (List.reverse_perm TEMPLATES) (List.reverse_perm ROOT_FILES)
    (by decide) (by decide)
